import Mathlib

/-!
Verification development for the billboard-scraper pipeline.

The program (src/index.js, two revisions concatenated in the source file)
fetches weekly Hot-100 chart pages, extracts ranked entries from the cached
HTML, serializes them to per-year JSONL record files, and bulk-loads each
record file into a database inside one transaction.

The embedding below models, faithfully to the JavaScript source:
  - the ISO week-date arithmetic used by luxon DateTime (fromISO on
    week-date strings, plus one week, toISOWeekDate, weekYear, weekNumber),
    over Nat day numbers counted from 0000-03-01;
  - the per-year week-ending date loop of main, including the 1958 start
    week, the exclusive next-year bound, and the 1961-W52-6 skip;
  - the DOM query chains of parseHtml in both revisions, with JavaScript
    null / undefined distinguished and optional chaining short-circuits and
    TypeError propagation made explicit;
  - JSON.stringify of the five-element record array written by ingest, and
    a parser for such lines as JSON.parse reads them back;
  - the store function (transaction, per-line JSON parse, the hard-coded
    1984 week 7 position correction, insert, commit / rollback / rethrow)
    over an explicit database state, with insert failures supplied by an
    oracle standing for the database driver;
  - the download function (status and content-type gates) and the per-year
    orchestration of main in both revisions, recording fetch and parse
    effects so that skip and retry behavior can be stated.

Namespace V1 holds the year-range revision (the first file section, with the
gap-week skip, the position correction and the catch block after store);
namespace V2 holds the single-year revision (the second file section).
-/

namespace BillboardScraper

/-! ## ISO week-date arithmetic (model of the luxon calendar functions)

Day numbers count days since 0000-03-01 (the Hinnant civil-from-days
era form restricted to Nat, valid for all years used by the program).
-/

/-- Day number of a proleptic-Gregorian civil date, days since 0000-03-01. -/
def daysFromCivil (y m d : Nat) : Nat :=
  let yy := if m ≤ 2 then y - 1 else y
  let era := yy / 400
  let yoe := yy % 400
  let mp := if 2 < m then m - 3 else m + 9
  let doy := (153 * mp + 2) / 5 + d - 1
  let doe := yoe * 365 + yoe / 4 - yoe / 100 + doy
  era * 146097 + doe

/-- Civil date (year, month, day) of a day number. -/
def civilFromDays (z : Nat) : Nat × Nat × Nat :=
  let era := z / 146097
  let doe := z % 146097
  let yoe := (doe - doe / 1460 + doe / 36524 - doe / 146096) / 365
  let y := yoe + era * 400
  let doy := doe - (365 * yoe + yoe / 4 - yoe / 100)
  let mp := (5 * doy + 2) / 153
  let d := doy - (153 * mp + 2) / 5 + 1
  let m := if mp < 10 then mp + 3 else mp - 9
  (if m ≤ 2 then y + 1 else y, m, d)

/-- ISO weekday of a day number, Monday = 1 .. Sunday = 7. -/
def isoWeekday (z : Nat) : Nat := (z + 2) % 7 + 1

/-- Day number of the Monday of ISO week 1 of a week-year: the Monday of
the week containing January 4. -/
def mondayOfWeek1 (y : Nat) : Nat :=
  let j4 := daysFromCivil y 1 4
  j4 - (isoWeekday j4 - 1)

/-- Day number of an ISO week date, as luxon DateTime.fromISO reads a
yyyy-Www-d string. -/
def fromISOWeekDate (y w wd : Nat) : Nat :=
  mondayOfWeek1 y + (w - 1) * 7 + (wd - 1)

/-- ISO week date (weekYear, weekNumber, weekday) of a day number, as
luxon DateTime.toISOWeekDate renders it. -/
def toISOWeekDate (z : Nat) : Nat × Nat × Nat :=
  let cy := (civilFromDays z).1
  let wy := if z < mondayOfWeek1 cy then cy - 1
            else if mondayOfWeek1 (cy + 1) ≤ z then cy + 1
            else cy
  (wy, (z - mondayOfWeek1 wy) / 7 + 1, isoWeekday z)

/-- Number of ISO weeks in a week-year (52 or 53). -/
def weeksInWeekYear (y : Nat) : Nat := (mondayOfWeek1 (y + 1) - mondayOfWeek1 y) / 7

/-! ## DOM model shared by both parseHtml revisions

A chart row holds the results of the three querySelector calls the code
makes on it (none models a null return).  An element has an optional
firstChild; a child node has an optional nodeValue (none models the null
nodeValue of a non-text node).  JavaScript null and undefined are
distinguished, and the TypeError thrown by a property access on null is
explicit.
-/

/-- JavaScript value of one extracted field: null, undefined, or a string. -/
inductive JSVal where
  | nullV
  | undef
  | str (s : String)
deriving DecidableEq, Repr

/-- Errors parseHtml can raise: a TypeError from a property access on null,
or the explicit throw new Error of the unexpected-HTML guard. -/
inductive JsErr where
  | typeError
  | unexpectedHtml
deriving DecidableEq, Repr

/-- Child node of an element: nodeValue is none when the node is not a text
node (DOM nodeValue returns null there). -/
structure TextNode where
  nodeValue : Option String
deriving DecidableEq, Repr

/-- Element as the query chains use it: only its firstChild is consulted. -/
structure HtmlElem where
  firstChild : Option TextNode
deriving DecidableEq, Repr

/-- One div.o-chart-results-list-row-container, holding the results of the
three querySelector calls made on it (none models a null result). -/
structure ChartRow where
  titleEl : Option HtmlElem
  artistEl : Option HtmlElem
  posEl : Option HtmlElem
deriving DecidableEq, Repr

/-- A parsed cached page: the node list returned by querySelectorAll. -/
structure ChartPage where
  rows : List ChartRow
deriving DecidableEq, Repr

/-- JavaScript whitespace test used by String.prototype.trim. -/
def isJsWhitespace (c : Char) : Bool :=
  c = ' ' || c = '\t' || c = '\n' || c = '\x0d' || c = '\x0b' || c = '\x0c' ||
  c = '\u00A0' || c = '\u1680' ||
  ('\u2000' ≤ c && c ≤ '\u200A') ||
  c = '\u2028' || c = '\u2029' || c = '\u202F' || c = '\u205F' ||
  c = '\u3000' || c = '\uFEFF'

/-- Model of JavaScript String.prototype.trim. -/
def jsTrim (s : String) : String :=
  String.mk (((s.data.dropWhile isJsWhitespace).reverse.dropWhile isJsWhitespace).reverse)

/-- Evaluation of one optional-chaining query expression
querySelector(sel)?.firstChild.nodeValue.trim().  A null querySelector
result short-circuits the whole chain to undefined; a null firstChild or a
null nodeValue makes the following property access throw a TypeError;
otherwise the trimmed string is produced.  The chain can never evaluate to
JavaScript null. -/
def qChain : Option HtmlElem → Except JsErr JSVal
  | none => Except.ok JSVal.undef
  | some el =>
    match el.firstChild with
    | none => Except.error JsErr.typeError
    | some n =>
      match n.nodeValue with
      | none => Except.error JsErr.typeError
      | some s => Except.ok (JSVal.str (jsTrim s))

end BillboardScraper

namespace BillboardScraper.V1

/-- One object yielded by the year-range revision of parseHtml: the rank is
the row index plus one, the title and artist are the raw chain values. -/
structure Entry1 where
  position : Nat
  artist : JSVal
  title : JSVal
deriving DecidableEq, Repr

/-- Body of the for loop of the year-range parseHtml, for the rows from
index i on: evaluates the title and artist chains, applies the
strict-equality-with-null guard, and yields one entry per row. -/
def parseRows : List ChartRow → Nat → Except JsErr (List Entry1)
  | [], _ => Except.ok []
  | row :: rest, i =>
    match qChain row.titleEl with
    | Except.error e => Except.error e
    | Except.ok title =>
      match qChain row.artistEl with
      | Except.error e => Except.error e
      | Except.ok artist =>
        if title = JSVal.nullV ∨ artist = JSVal.nullV then
          Except.error JsErr.unexpectedHtml
        else
          match parseRows rest (i + 1) with
          | Except.error e => Except.error e
          | Except.ok es => Except.ok (⟨i + 1, artist, title⟩ :: es)

/-- The year-range revision of parseHtml: if the detected row count is not
exactly 100 the generator logs and returns, yielding nothing (and raising
nothing); otherwise it runs the row loop. -/
def parseHtml (page : ChartPage) : Except JsErr (List Entry1) :=
  if page.rows.length ≠ 100 then Except.ok []
  else parseRows page.rows 0

end BillboardScraper.V1

namespace BillboardScraper.V2

/-- One object yielded by the single-year revision of parseHtml: all three
fields come from query chains. -/
structure Entry2 where
  position : JSVal
  artist : JSVal
  title : JSVal
deriving DecidableEq, Repr

/-- Body of the for-of loop of the single-year parseHtml: evaluates the
rank, title and artist chains, applies the strict-equality-with-null guard,
and yields one entry per row.  There is no row-count check. -/
def parseRows : List ChartRow → Except JsErr (List Entry2)
  | [] => Except.ok []
  | row :: rest =>
    match qChain row.posEl with
    | Except.error e => Except.error e
    | Except.ok p =>
      match qChain row.titleEl with
      | Except.error e => Except.error e
      | Except.ok title =>
        match qChain row.artistEl with
        | Except.error e => Except.error e
        | Except.ok artist =>
          if p = JSVal.nullV ∨ title = JSVal.nullV ∨ artist = JSVal.nullV then
            Except.error JsErr.unexpectedHtml
          else
            match parseRows rest with
            | Except.error e => Except.error e
            | Except.ok es => Except.ok (⟨p, artist, title⟩ :: es)

/-- The single-year revision of parseHtml: yields one entry per detected
row, with no count validation. -/
def parseHtml (page : ChartPage) : Except JsErr (List Entry2) :=
  parseRows page.rows

end BillboardScraper.V2

namespace BillboardScraper

/-! ## Fetcher (the download function, identical in both revisions) -/

/-- Return value of the download function: null on the two rejection paths,
undefined when it falls off the end after writing the cache file. -/
inductive JSRet where
  | nullRet
  | undefRet
deriving DecidableEq, Repr

/-- The HTTP response the undici request yields: status code, the
content-type header (none models an absent header, read as undefined), and
the body chunks. -/
structure Response where
  statusCode : Nat
  contentType : Option String
  body : List String
deriving DecidableEq, Repr

/-- Observable outcome of download: its return value, the cache file
contents if one was created, and whether an error was logged. -/
structure DownloadOut where
  retval : JSRet
  cache : Option (List String)
  errLogged : Bool
deriving DecidableEq, Repr

/-- The download function: rejects any status code other than 200, then any
content-type differing from the exact expected string (an absent header
also differs), logging and returning null in both cases without touching
the filesystem; on acceptance it streams the body to the cache file. -/
def download (resp : Response) : DownloadOut :=
  if resp.statusCode ≠ 200 then ⟨JSRet.nullRet, none, true⟩
  else if resp.contentType ≠ some "text/html; charset=UTF-8" then ⟨JSRet.nullRet, none, true⟩
  else ⟨JSRet.undefRet, some resp.body, false⟩

end BillboardScraper

namespace BillboardScraper

/-! ## JSON record lines (the writer side of ingest and the reader side of
store)

The year-range revision of ingest writes, per yielded entry,
JSON.stringify of the array [date.weekYear, date.weekNumber, position,
artist, title] followed by one newline.  The arrays written there have two
Nat number fields, a Nat rank, and two string fields; stringifyEntry
produces exactly the character sequence JSON.stringify produces on them,
including the string escaping JSON.stringify performs.  parseEntryLine
reads one such line back the way JSON.parse does.
-/

/-- A chart entry as the year-range revision serializes it. -/
structure Entry where
  weekYear : Nat
  weekNumber : Nat
  position : Nat
  artist : String
  title : String
deriving DecidableEq, Repr

/-- Decimal digit character of a value below ten. -/
def digitChar (n : Nat) : Char :=
  match n with
  | 0 => '0' | 1 => '1' | 2 => '2' | 3 => '3' | 4 => '4'
  | 5 => '5' | 6 => '6' | 7 => '7' | 8 => '8' | _ => '9'

/-- Decimal digits of a number, most significant first; the first argument
is fuel, sufficient whenever it exceeds the number. -/
def natCharsAux : Nat → Nat → List Char
  | 0, _ => []
  | fuel + 1, n =>
    if n < 10 then [digitChar n]
    else natCharsAux fuel (n / 10) ++ [digitChar (n % 10)]

/-- Decimal representation of a Nat, as JSON.stringify writes a whole
number. -/
def natChars (n : Nat) : List Char := natCharsAux (n + 1) n

/-- Lowercase hexadecimal digit character of a value below sixteen. -/
def hexDigitChar (n : Nat) : Char :=
  match n with
  | 0 => '0' | 1 => '1' | 2 => '2' | 3 => '3' | 4 => '4'
  | 5 => '5' | 6 => '6' | 7 => '7' | 8 => '8' | 9 => '9'
  | 10 => 'a' | 11 => 'b' | 12 => 'c' | 13 => 'd' | 14 => 'e' | _ => 'f'

/-- The escape JSON.stringify applies to one character inside a quoted
string: quote and backslash get a backslash escape, the five named control
characters get their short escapes, every other control character below
space gets a four-digit unicode escape, and everything else is copied
verbatim. -/
def escChar (c : Char) : List Char :=
  if c = '"' then ['\\', '"']
  else if c = '\\' then ['\\', '\\']
  else if c = '\x08' then ['\\', 'b']
  else if c = '\t' then ['\\', 't']
  else if c = '\n' then ['\\', 'n']
  else if c = '\x0c' then ['\\', 'f']
  else if c = '\x0d' then ['\\', 'r']
  else if c.toNat < 32 then
    ['\\', 'u', '0', '0', hexDigitChar (c.toNat / 16), hexDigitChar (c.toNat % 16)]
  else [c]

/-- Characters of JSON.stringify applied to one string value. -/
def quoteChars (s : String) : List Char :=
  '"' :: (s.data.flatMap escChar ++ ['"'])

/-- Characters of JSON.stringify applied to the five-element record array
the year-range ingest writes (no whitespace, elements comma-separated). -/
def stringifyEntry (e : Entry) : List Char :=
  '[' :: (natChars e.weekYear ++
    ',' :: (natChars e.weekNumber ++
      ',' :: (natChars e.position ++
        ',' :: (quoteChars e.artist ++
          ',' :: (quoteChars e.title ++ [']'])))))

/-- The record-file line written for one entry. -/
def entryLine (e : Entry) : String := String.mk (stringifyEntry e)

/-- Numeric value of a hexadecimal digit character, as JSON.parse reads
unicode escapes. -/
def hexVal (c : Char) : Option Nat :=
  if '0' ≤ c ∧ c ≤ '9' then some (c.toNat - 48)
  else if 'a' ≤ c ∧ c ≤ 'f' then some (c.toNat - 87)
  else if 'A' ≤ c ∧ c ≤ 'F' then some (c.toNat - 55)
  else none

/-- Value of a run of decimal digit characters. -/
def valDigits (ds : List Char) : Nat :=
  ds.foldl (fun a c => 10 * a + (c.toNat - 48)) 0

/-- Parse a nonempty run of decimal digits from the front of the input,
returning its value and the rest. -/
def parseNat (cs : List Char) : Option (Nat × List Char) :=
  let ds := cs.takeWhile (fun c => c.isDigit)
  if ds.isEmpty then none else some (valDigits ds, cs.dropWhile (fun c => c.isDigit))

/-- Consume one expected character from the front of the input. -/
def expectChar (c : Char) : List Char → Option (List Char)
  | x :: r => if x = c then some r else none
  | [] => none

/-- Parse the body of a JSON string after its opening quote, as JSON.parse
does: plain characters are taken verbatim, backslash escapes are decoded
(including four-digit unicode escapes), and the closing quote ends the
string.  Returns the decoded characters and the rest of the input. -/
def parseStringBody : List Char → List Char → Option (List Char × List Char)
  | [], _ => none
  | c :: r, acc =>
    if c = '"' then some (acc.reverse, r)
    else if c = '\\' then
      match r with
      | [] => none
      | e :: r2 =>
        if e = '"' then parseStringBody r2 ('"' :: acc)
        else if e = '\\' then parseStringBody r2 ('\\' :: acc)
        else if e = '/' then parseStringBody r2 ('/' :: acc)
        else if e = 'b' then parseStringBody r2 ('\x08' :: acc)
        else if e = 't' then parseStringBody r2 ('\t' :: acc)
        else if e = 'n' then parseStringBody r2 ('\n' :: acc)
        else if e = 'f' then parseStringBody r2 ('\x0c' :: acc)
        else if e = 'r' then parseStringBody r2 ('\x0d' :: acc)
        else if e = 'u' then
          match r2 with
          | h1 :: h2 :: h3 :: h4 :: r3 =>
            match hexVal h1, hexVal h2, hexVal h3, hexVal h4 with
            | some a, some b, some c2, some d =>
              parseStringBody r3 (Char.ofNat (((a * 16 + b) * 16 + c2) * 16 + d) :: acc)
            | _, _, _, _ => none
          | _ => none
        else none
    else parseStringBody r (c :: acc)

/-- Parse one record-file line back into the five-tuple, the way JSON.parse
reads a line the year-range ingest wrote: a bracketed array of three
numbers and two quoted strings with no surrounding whitespace. -/
def parseEntryLine (s : String) : Option Entry := do
  let r0 ← expectChar '[' s.data
  let (wy, r1) ← parseNat r0
  let r2 ← expectChar ',' r1
  let (wn, r3) ← parseNat r2
  let r4 ← expectChar ',' r3
  let (p, r5) ← parseNat r4
  let r6 ← expectChar ',' r5
  let r7 ← expectChar '"' r6
  let (a, r8) ← parseStringBody r7 []
  let r9 ← expectChar ',' r8
  let r10 ← expectChar '"' r9
  let (t, r11) ← parseStringBody r10 []
  let r12 ← expectChar ']' r11
  if r12 = [] then some ⟨wy, wn, p, String.mk a, String.mk t⟩ else none

/-! ## Loader (the store function)

JSON.parse and the database driver are collaborators: a record-file line is
given to store as none when JSON.parse would raise on it and as the parsed
five-element value array otherwise, and insert failures are supplied by an
oracle on the corrected row.  The open transaction is the list of rows
inserted since BEGIN; COMMIT appends it to the committed database state,
ROLLBACK discards it.
-/

/-- A JSON value in one slot of a parsed record-array: a number or a
string (the shapes the record file holds). -/
inductive JVal where
  | num (n : Int)
  | str (s : String)
deriving DecidableEq, Repr

/-- The value array JSON.parse produces from one record line: slots 0..4
are year, week, position, artist, title. -/
structure RowJ where
  year : JVal
  week : JVal
  pos : JVal
  artist : JVal
  title : JVal
deriving DecidableEq, Repr

/-- Errors store can raise: a JSON.parse failure or an insert failure from
the database driver. -/
inductive StoreErr where
  | parseErr
  | insertErr (r : RowJ)
deriving DecidableEq, Repr

/-- The hard-coded correction in the year-range store: when slot 0 is
strictly equal to the number 1984, slot 1 to the number 7, and slot 4 to
the title string, slot 2 is overwritten with the string 87.  Strict
equality of a string slot with a number literal is false, as in
JavaScript. -/
def applyCorrection (values : RowJ) : RowJ :=
  if values.year = JVal.num 1984 ∧ values.week = JVal.num 7 ∧
      values.title = JVal.str "Remember The Nights" then
    { values with pos := JVal.str "87" }
  else values

end BillboardScraper

namespace BillboardScraper.V1

/-- The for-await loop of the year-range store: parses each line (a parse
failure raises), applies the correction, and issues one insert per record
into the open transaction (an insert failure raises).  Returns the
transaction contents at the end of the file. -/
def storeLoop (insertOk : RowJ → Bool) :
    List (Option RowJ) → List RowJ → Except StoreErr (List RowJ)
  | [], pending => Except.ok pending
  | line :: rest, pending =>
    match line with
    | none => Except.error StoreErr.parseErr
    | some values =>
      let v := applyCorrection values
      if insertOk v then storeLoop insertOk rest (pending ++ [v])
      else Except.error (StoreErr.insertErr v)

/-- The year-range store: a missing record file is a soft return; otherwise
BEGIN opens an empty transaction, the loop runs, COMMIT publishes the
transaction into the database on success, and any raised error triggers
ROLLBACK (discarding the transaction) and is re-raised.  Returns the
outcome and the database state afterward. -/
def store (insertOk : RowJ → Bool) (fileExists : Bool) (lines : List (Option RowJ))
    (db : List RowJ) : Except StoreErr Unit × List RowJ :=
  if !fileExists then (Except.ok (), db)
  else
    match storeLoop insertOk lines [] with
    | Except.ok pending => (Except.ok (), db ++ pending)
    | Except.error e => (Except.error e, db)

end BillboardScraper.V1

namespace BillboardScraper.V2

/-- The for-await loop of the single-year store: identical to the
year-range loop but with no correction. -/
def storeLoop (insertOk : RowJ → Bool) :
    List (Option RowJ) → List RowJ → Except StoreErr (List RowJ)
  | [], pending => Except.ok pending
  | line :: rest, pending =>
    match line with
    | none => Except.error StoreErr.parseErr
    | some values =>
      if insertOk values then storeLoop insertOk rest (pending ++ [values])
      else Except.error (StoreErr.insertErr values)

/-- The single-year store: same transactional shell as the year-range
store, without the correction. -/
def store (insertOk : RowJ → Bool) (fileExists : Bool) (lines : List (Option RowJ))
    (db : List RowJ) : Except StoreErr Unit × List RowJ :=
  if !fileExists then (Except.ok (), db)
  else
    match storeLoop insertOk lines [] with
    | Except.ok pending => (Except.ok (), db ++ pending)
    | Except.error e => (Except.error e, db)

end BillboardScraper.V2

namespace BillboardScraper

/-! ## Orchestrator

The per-year loop of main is modeled over an abstract filesystem state (the
existence of the per-year record file and of per-date page-cache files) and
an effect trace recording every download issued and every parseHtml
invocation, so that skipping and retry behavior are observable.  HTTP
responses per date, record-file contents per year, and insert outcomes are
supplied by oracles standing for the external collaborators.
-/

/-- Observable ingestion effects of one orchestrator run. -/
inductive Effect where
  | fetch (date : Nat)
  | parsePage (date : Nat)
deriving DecidableEq, Repr

/-- Filesystem state the orchestrator consults: existence of the per-year
record file and of the per-date page-cache file. -/
structure FS where
  jsonl : Nat → Bool
  html : Nat → Bool

/-- The ingest function, shared by both revisions: downloads the page when
its cache file is absent (creating the cache file when download accepts the
response), then invokes parseHtml on the cache file and appends its yield to
the record file. -/
def ingest (resp : Nat → Response) (fs : FS) (date : Nat) : List Effect × FS :=
  if fs.html date then ([Effect.parsePage date], fs)
  else
    let out := download (resp date)
    let fs1 :=
      match out.cache with
      | some _ => { fs with html := fun d => if d = date then true else fs.html d }
      | none => fs
    ([Effect.fetch date, Effect.parsePage date], fs1)

end BillboardScraper

namespace BillboardScraper.V1

/-- Week-ending start date of a year in the year-range main: the fixed
historical start week for 1958, ISO week 1 Saturday otherwise. -/
def dateFrom (year : Nat) : Nat :=
  if year = 1958 then fromISOWeekDate 1958 31 6 else fromISOWeekDate year 1 6

/-- Exclusive end bound of the per-year date loop: the following year week 1
Saturday. -/
def dateTo (year : Nat) : Nat := fromISOWeekDate (year + 1) 1 6

/-- The per-year for loop over dates, stepping one week at a time while
strictly before the bound, with the continue on the 1961-W52-6 week: the
resulting list holds exactly the dates that reach ingest.  The first
argument is fuel, sufficient whenever it reaches the day distance to the
bound. -/
def weekDatesAux : Nat → Nat → Nat → List Nat
  | 0, _, _ => []
  | fuel + 1, d, dTo =>
    if d < dTo then
      if toISOWeekDate d = (1961, 52, 6) then weekDatesAux fuel (d + 7) dTo
      else d :: weekDatesAux fuel (d + 7) dTo
    else []

/-- Dates of the per-year loop from a start date to an exclusive bound. -/
def weekDates (d dTo : Nat) : List Nat := weekDatesAux (dTo - d) d dTo

/-- The week-ending dates ingested for one requested year. -/
def yearDates (year : Nat) : List Nat := weekDates (dateFrom year) (dateTo year)

/-- The catch block after store in the year-range main, as written: it
re-raises the caught error first, so the statements after it (log, delete
the record file, decrement the year to retry) are dead code.  Modeled in
the exception monad: the ok branch carries the would-be retry action
(record file removed, retry flagged) that the block never reaches. -/
def catchHandler (err : StoreErr) (fs : FS) (year : Nat) : Except StoreErr (FS × Bool) :=
  (Except.error err : Except StoreErr Unit) >>= fun _ =>
    Except.ok ({ fs with jsonl := fun y => if y = year then false else fs.jsonl y }, true)

/-- One iteration of the year-range main for one requested year: the whole
ingestion loop is guarded by the existence of the record file; afterwards
store runs on the record file, and a store error goes through the catch
block.  Returns the ingestion effect trace, the filesystem state, and the
outcome of the year. -/
def processYear (resp : Nat → Response) (insertOk : RowJ → Bool)
    (linesOf : Nat → List (Option RowJ)) (fs : FS) (year : Nat) :
    List Effect × FS × Except StoreErr Unit :=
  let ing :=
    if fs.jsonl year then (([] : List Effect), fs)
    else
      let folded := (yearDates year).foldl
        (fun acc d =>
          let step := ingest resp acc.2 d
          (acc.1 ++ step.1, step.2))
        (([] : List Effect), fs)
      (folded.1, { folded.2 with jsonl := fun y => if y = year then true else folded.2.jsonl y })
  let effs := ing.1
  let fs1 := ing.2
  let res := store insertOk (fs1.jsonl year) (linesOf year) []
  match res.1 with
  | Except.ok _ => (effs, fs1, Except.ok ())
  | Except.error e =>
    match catchHandler e fs1 year with
    | Except.error e2 => (effs, fs1, Except.error e2)
    | Except.ok (fs2, _) => (effs, fs2, Except.ok ())

end BillboardScraper.V1

namespace BillboardScraper.V2

/-- Week-ending start date in the single-year main: ISO week 1 Saturday. -/
def dateFrom (year : Nat) : Nat := fromISOWeekDate year 1 6

/-- Exclusive end bound: the following year week 1 Saturday. -/
def dateTo (year : Nat) : Nat := fromISOWeekDate (year + 1) 1 6

/-- The per-year for loop over dates in the single-year main: one week at a
time while strictly before the bound, with no gap-week skip.  The first
argument is fuel, sufficient whenever it reaches the day distance to the
bound. -/
def weekDatesAux : Nat → Nat → Nat → List Nat
  | 0, _, _ => []
  | fuel + 1, d, dTo =>
    if d < dTo then d :: weekDatesAux fuel (d + 7) dTo
    else []

/-- Dates of the single-year loop from a start date to an exclusive bound. -/
def weekDates (d dTo : Nat) : List Nat := weekDatesAux (dTo - d) d dTo

/-- The week-ending dates ingested for the requested year. -/
def yearDates (year : Nat) : List Nat := weekDates (dateFrom year) (dateTo year)

/-- The single-year main after argument validation: the ingestion loop is
guarded by the existence of the record file, then store runs; a store error
propagates directly (there is no catch around it). -/
def processYear (resp : Nat → Response) (insertOk : RowJ → Bool)
    (linesOf : Nat → List (Option RowJ)) (fs : FS) (year : Nat) :
    List Effect × FS × Except StoreErr Unit :=
  let ing :=
    if fs.jsonl year then (([] : List Effect), fs)
    else
      let folded := (yearDates year).foldl
        (fun acc d =>
          let step := ingest resp acc.2 d
          (acc.1 ++ step.1, step.2))
        (([] : List Effect), fs)
      (folded.1, { folded.2 with jsonl := fun y => if y = year then true else folded.2.jsonl y })
  let effs := ing.1
  let fs1 := ing.2
  let res := store insertOk (fs1.jsonl year) (linesOf year) []
  (effs, fs1, res.1)

end BillboardScraper.V2

namespace BillboardScraper.V1

/-- The corrected row sequence a record file parses to when every line
parses: each line in order, with the correction applied; none when some
line fails to parse. -/
def parsedRows : List (Option RowJ) → Option (List RowJ)
  | [] => some []
  | none :: _ => none
  | some v :: rest => (parsedRows rest).map (fun rs => applyCorrection v :: rs)

end BillboardScraper.V1

namespace BillboardScraper.V2

/-- The row sequence a record file parses to when every line parses; none
when some line fails to parse. -/
def parsedRows : List (Option RowJ) → Option (List RowJ)
  | [] => some []
  | none :: _ => none
  | some v :: rest => (parsedRows rest).map (fun rs => v :: rs)

end BillboardScraper.V2

namespace BillboardScraper

/-- Claim C1 property of the date sequence of one requested year: it starts
at the anchored first Saturday, is strictly increasing, steps by exactly
seven days between consecutive entries, stays strictly below the following
year week 1 Saturday, never hits the designated gap week, and its ISO week
dates are exactly one Saturday per ISO week of the year from the anchor
week on, the gap week excluded. -/
abbrev weekSeqSpec (y : Nat) : Prop :=
  (V1.yearDates y).head? = some (V1.dateFrom y)
  ∧ List.Pairwise (· < ·) (V1.yearDates y)
  ∧ (∀ p ∈ (V1.yearDates y).zip (V1.yearDates y).tail, p.2 = p.1 + 7)
  ∧ (∀ d ∈ V1.yearDates y, d < V1.dateTo y)
  ∧ fromISOWeekDate 1961 52 6 ∉ V1.yearDates y
  ∧ V1.yearDates y
      = ((List.range (weeksInWeekYear y + 1 - (if y = 1958 then 31 else 1))).map
          (fun k => fromISOWeekDate y ((if y = 1958 then 31 else 1) + k) 6)).filter
            (fun d => d ≠ fromISOWeekDate 1961 52 6)

/-- Test that a query chain produced a non-empty string. -/
def nonEmptyOkStr : Except JsErr JSVal → Bool
  | Except.ok (JSVal.str s) => !(s == "")
  | _ => false

/-- A structurally sound row for the year-range extractor: title and artist
chains both produce non-empty strings. -/
def goodRow (row : ChartRow) : Bool :=
  nonEmptyOkStr (qChain row.titleEl) && nonEmptyOkStr (qChain row.artistEl)

/-- A structurally sound row carrying rank label n for the single-year
extractor: the rank chain produces exactly the decimal numeral of n and the
title and artist chains produce non-empty strings. -/
def goodRowPos (row : ChartRow) (n : Nat) : Bool :=
  (match qChain row.posEl with
   | Except.ok (JSVal.str s) => s == Nat.repr n
   | _ => false) && goodRow row

/-- A fully populated chart row used as concrete input. -/
def goodRow0 : ChartRow :=
  ⟨some ⟨some ⟨some "Fine Title"⟩⟩, some ⟨some ⟨some "Fine Artist"⟩⟩, some ⟨some ⟨some "7"⟩⟩⟩

/-- A chart row whose title query finds no element (querySelector returned
null), with artist and rank present. -/
def noTitleRow : ChartRow :=
  ⟨none, some ⟨some ⟨some "Fine Artist"⟩⟩, some ⟨some ⟨some "7"⟩⟩⟩

/-- A cached page with 99 detected rows. -/
def page99 : ChartPage := ⟨List.replicate 99 goodRow0⟩

/-- A cached page with 100 detected rows whose first row has no title
element. -/
def pageMissingTitle : ChartPage := ⟨noTitleRow :: List.replicate 99 goodRow0⟩

/-- A well-formed page for the year-range extractor: 100 fully populated
rows. -/
def page100good : ChartPage := ⟨List.replicate 100 goodRow0⟩

/-- A fully populated chart row whose rank label is the decimal numeral of
n. -/
def goodRowNum (n : Nat) : ChartRow :=
  ⟨some ⟨some ⟨some "Fine Title"⟩⟩, some ⟨some ⟨some "Fine Artist"⟩⟩,
    some ⟨some ⟨some (Nat.repr n)⟩⟩⟩

/-- A well-formed page for the single-year extractor: 100 fully populated
rows with rank labels 1 to 100 in order. -/
def page100pos : ChartPage := ⟨(List.range' 1 100).map goodRowNum⟩

/-- The entry list the year-range extractor yields on pageMissingTitle: one
entry per row, the first with an undefined title. -/
def missingTitleEntries : List V1.Entry1 :=
  ⟨1, JSVal.str "Fine Artist", JSVal.undef⟩ ::
    (List.range' 2 99).map (fun i => ⟨i, JSVal.str "Fine Artist", JSVal.str "Fine Title"⟩)

/-- A filesystem state in which every record file already exists and no
page-cache file does. -/
def allJsonlFS : FS := ⟨fun _ => true, fun _ => false⟩

/-- An insert oracle on which every insert fails. -/
def failingInsert : RowJ → Bool := fun _ => false

/-- An insert oracle on which every insert succeeds. -/
def acceptingInsert : RowJ → Bool := fun _ => true

/-- A response oracle that always accepts. -/
def demoResp : Nat → Response := fun _ => ⟨200, some "text/html; charset=UTF-8", ["page"]⟩

/-- A plain record row used as concrete input. -/
def demoRow : RowJ := ⟨JVal.num 1984, JVal.num 1, JVal.num 5, JVal.str "A", JVal.str "T"⟩

/-- A record-file oracle giving every year one plain row. -/
def demoLines : Nat → List (Option RowJ) := fun _ => [some demoRow]

/-- The literal corrected input of the specification: the parsed value
array of the line with year 1984, week 7, recorded rank 99. -/
def rememberRow : RowJ :=
  ⟨JVal.num 1984, JVal.num 7, JVal.str "99", JVal.str "Some Artist",
    JVal.str "Remember The Nights"⟩

end BillboardScraper

namespace BillboardScraper

/-- Decidable equality for Except outcomes, so that concrete extractor and
loader results can be checked by evaluation. -/
instance exceptDecEq {ε α : Type} [DecidableEq ε] [DecidableEq α] :
    DecidableEq (Except ε α)
  | Except.error e1, Except.error e2 =>
    match decEq e1 e2 with
    | isTrue h => isTrue (h ▸ rfl)
    | isFalse h => isFalse (fun hh => h (Except.error.inj hh))
  | Except.error _, Except.ok _ => isFalse (fun hh => Except.noConfusion hh)
  | Except.ok _, Except.error _ => isFalse (fun hh => Except.noConfusion hh)
  | Except.ok a1, Except.ok a2 =>
    match decEq a1 a2 with
    | isTrue h => isTrue (h ▸ rfl)
    | isFalse h => isFalse (fun hh => h (Except.ok.inj hh))

end BillboardScraper

namespace BillboardScraper

/-! ## Helper lemmas -/

/-- The fuel argument of the year-range date loop is irrelevant once it
covers the day distance to the bound. -/
theorem V1.weekDatesAux_fuel : ∀ f1 f2 d dTo, dTo - d ≤ f1 → dTo - d ≤ f2 →
    V1.weekDatesAux f1 d dTo = V1.weekDatesAux f2 d dTo := by
  intro f1
  induction f1 with
  | zero =>
    intro f2 d dTo h1 h2
    cases f2 with
    | zero => rfl
    | succ k =>
      simp only [V1.weekDatesAux]
      rw [if_neg (by omega)]
  | succ k ih =>
    intro f2 d dTo h1 h2
    cases f2 with
    | zero =>
      simp only [V1.weekDatesAux]
      rw [if_neg (by omega)]
    | succ m =>
      simp only [V1.weekDatesAux]
      by_cases hd : d < dTo
      · rw [if_pos hd, if_pos hd, ih m (d + 7) dTo (by omega) (by omega)]
      · rw [if_neg hd, if_neg hd]

/-- The fueled date-loop encoding satisfies exactly the unfolding equation
of the source for loop: while strictly before the bound, skip the gap week
and otherwise emit the date, stepping one week. -/
theorem V1.weekDates_eq (d dTo : Nat) : V1.weekDates d dTo =
    if d < dTo then
      if toISOWeekDate d = (1961, 52, 6) then V1.weekDates (d + 7) dTo
      else d :: V1.weekDates (d + 7) dTo
    else [] := by
  unfold V1.weekDates
  by_cases hd : d < dTo
  · have h1 : dTo - d = (dTo - d - 1) + 1 := by omega
    rw [h1]
    simp only [V1.weekDatesAux]
    rw [if_pos hd, if_pos hd,
      V1.weekDatesAux_fuel (dTo - d - 1) (dTo - (d + 7)) (d + 7) dTo (by omega) (by omega)]
  · cases h1 : dTo - d with
    | zero => simp only [V1.weekDatesAux]; rw [if_neg hd]
    | succ k => omega

/-- A query chain never evaluates to JavaScript null. -/
theorem qChain_ne_nullV (q : Option HtmlElem) : qChain q ≠ Except.ok JSVal.nullV := by
  match q with
  | none => simp [qChain]
  | some el =>
    match h : el.firstChild with
    | none => simp [qChain, h]
    | some n =>
      match h2 : n.nodeValue with
      | none => simp [qChain, h, h2]
      | some s => simp [qChain, h, h2]

/-- A query chain never raises the unexpected-HTML error: its only failure
mode is a TypeError. -/
theorem qChain_ne_unexpected (q : Option HtmlElem) :
    qChain q ≠ Except.error JsErr.unexpectedHtml := by
  match q with
  | none => simp [qChain]
  | some el =>
    match h1 : el.firstChild with
    | none => simp [qChain, h1]
    | some n =>
      match h2 : n.nodeValue with
      | none => simp [qChain, h1, h2]
      | some s => simp [qChain, h1, h2]

end BillboardScraper

namespace BillboardScraper

/-- A successful query chain never produces JavaScript null. -/
theorem qChain_ok_ne_null (q : Option HtmlElem) (v : JSVal)
    (h : qChain q = Except.ok v) : v ≠ JSVal.nullV := by
  intro hv
  subst hv
  exact qChain_ne_nullV q h

/-- The row loop of the year-range extractor never raises the
unexpected-HTML error: the guard compares with null, which no chain value
can be. -/
theorem V1.parseRows_v1_ne_unexpected : ∀ (rows : List ChartRow) (i : Nat),
    V1.parseRows rows i ≠ Except.error JsErr.unexpectedHtml := by
  intro rows
  induction rows with
  | nil => intro i; simp [V1.parseRows]
  | cons row rest ih =>
    intro i
    simp only [V1.parseRows]
    cases ht : qChain row.titleEl with
    | error e =>
      simp
      intro he
      exact qChain_ne_unexpected row.titleEl (he ▸ ht)
    | ok tv =>
      cases ha : qChain row.artistEl with
      | error e =>
        simp
        intro he
        exact qChain_ne_unexpected row.artistEl (he ▸ ha)
      | ok av =>
        have htv : tv ≠ JSVal.nullV := qChain_ok_ne_null _ _ ht
        have hav : av ≠ JSVal.nullV := qChain_ok_ne_null _ _ ha
        cases hr : V1.parseRows rest (i + 1) with
        | error e =>
          simp [htv, hav, hr]
          intro he
          exact ih (i + 1) (he ▸ hr)
        | ok es => simp [htv, hav, hr]

end BillboardScraper

namespace BillboardScraper

/-- The row loop of the single-year extractor never raises the
unexpected-HTML error: the guard compares with null, which no chain value
can be. -/
theorem V2.parseRows_v2_ne_unexpected : ∀ (rows : List ChartRow),
    V2.parseRows rows ≠ Except.error JsErr.unexpectedHtml := by
  intro rows
  induction rows with
  | nil => simp [V2.parseRows]
  | cons row rest ih =>
    simp only [V2.parseRows]
    cases hp : qChain row.posEl with
    | error e =>
      simp
      intro he
      exact qChain_ne_unexpected row.posEl (he ▸ hp)
    | ok pv =>
      cases ht : qChain row.titleEl with
      | error e =>
        simp
        intro he
        exact qChain_ne_unexpected row.titleEl (he ▸ ht)
      | ok tv =>
        cases ha : qChain row.artistEl with
        | error e =>
          simp
          intro he
          exact qChain_ne_unexpected row.artistEl (he ▸ ha)
        | ok av =>
          have hpv : pv ≠ JSVal.nullV := qChain_ok_ne_null _ _ hp
          have htv : tv ≠ JSVal.nullV := qChain_ok_ne_null _ _ ht
          have hav : av ≠ JSVal.nullV := qChain_ok_ne_null _ _ ha
          cases hr : V2.parseRows rest with
          | error e =>
            simp [hpv, htv, hav, hr]
            intro he
            exact ih (he ▸ hr)
          | ok es => simp [hpv, htv, hav, hr]

/-! ## Claims -/

/-- C8: for every fetch whose HTTP response has a status code other than
200 or a content-type header different from the exact string
text/html; charset=UTF-8 (an absent header included), the Fetcher logs the
deviation and returns null without raising, and no cache file is created
for that date. -/
theorem c8_download_rejects_softly (resp : Response)
    (h : resp.statusCode ≠ 200 ∨ resp.contentType ≠ some "text/html; charset=UTF-8") :
    download resp = ⟨JSRet.nullRet, none, true⟩ := by
  unfold download
  rcases h with h | h
  · rw [if_pos h]
  · by_cases h2 : resp.statusCode ≠ 200
    · rw [if_pos h2]
    · rw [if_neg h2, if_pos h]

/-- Witness for C8 at a concrete rejected response: status 404 with the
expected content type. -/
theorem c8_download_rejects_softly_witness :
    download ⟨404, some "text/html; charset=UTF-8", ["page"]⟩ = ⟨JSRet.nullRet, none, true⟩ :=
  c8_download_rejects_softly ⟨404, some "text/html; charset=UTF-8", ["page"]⟩
    (Or.inl (by decide))

/-- C3: every record whose year slot is the number 1984, week slot the
number 7 and title slot the string Remember The Nights has its position
slot overwritten with 87 before insertion, whatever the recorded position
was, and the literal input line with recorded rank 99 is stored with
position 87. -/
theorem c3_position_correction (v : RowJ)
    (h1 : v.year = JVal.num 1984) (h2 : v.week = JVal.num 7)
    (h3 : v.title = JVal.str "Remember The Nights") :
    (applyCorrection v).pos = JVal.str "87"
    ∧ (applyCorrection v).year = v.year
    ∧ (applyCorrection v).week = v.week
    ∧ (applyCorrection v).artist = v.artist
    ∧ (applyCorrection v).title = v.title
    ∧ V1.store acceptingInsert true [some rememberRow] []
        = (Except.ok (), [⟨JVal.num 1984, JVal.num 7, JVal.str "87", JVal.str "Some Artist",
            JVal.str "Remember The Nights"⟩]) := by
  refine ⟨?_, ?_, ?_, ?_, ?_, rfl⟩ <;>
    simp [applyCorrection, h1, h2, h3]

/-- Witness for C3 at the literal corrected input of the specification. -/
theorem c3_position_correction_witness :
    (applyCorrection rememberRow).pos = JVal.str "87" :=
  (c3_position_correction rememberRow rfl rfl rfl).1

end BillboardScraper

namespace BillboardScraper

/-- C6: for every year whose record file already exists, both revisions of
main skip the entire per-year ingestion loop: the effect trace is empty, so
zero fetches are issued and zero pages are re-extracted for that year. -/
theorem c6_completed_year_skipped (resp : Nat → Response) (ins : RowJ → Bool)
    (linesOf : Nat → List (Option RowJ)) (fs : FS) (year : Nat)
    (h : fs.jsonl year = true) :
    (V1.processYear resp ins linesOf fs year).1 = []
    ∧ (V2.processYear resp ins linesOf fs year).1 = [] := by
  constructor
  · unfold V1.processYear
    simp only [h, if_true]
    split <;> rfl
  · unfold V2.processYear
    simp only [h, if_true]

/-- Witness for C6 at a filesystem state in which the record file for 1999
exists. -/
theorem c6_completed_year_skipped_witness :
    (V1.processYear demoResp acceptingInsert demoLines allJsonlFS 1999).1 = []
    ∧ (V2.processYear demoResp acceptingInsert demoLines allJsonlFS 1999).1 = [] :=
  c6_completed_year_skipped demoResp acceptingInsert demoLines allJsonlFS 1999 rfl

/-- C9 evidence: the catch block after store in the year-range main always
re-raises the caught error, for every error, filesystem state and year, so
the record file is never deleted and the retry never happens; concretely,
on a year whose record file exists and whose single record row fails to
insert, the year ends with the insert error propagated, the record file
still present, and no renewed ingestion effects. -/
theorem c9_retry_branch_dead :
    (∀ (err : StoreErr) (fs : FS) (year : Nat), V1.catchHandler err fs year = Except.error err)
    ∧ (V1.processYear demoResp failingInsert demoLines allJsonlFS 1984).2.2
        = Except.error (StoreErr.insertErr demoRow)
    ∧ (V1.processYear demoResp failingInsert demoLines allJsonlFS 1984).2.1.jsonl 1984 = true
    ∧ (V1.processYear demoResp failingInsert demoLines allJsonlFS 1984).1 = [] :=
  ⟨fun _ _ _ => rfl, rfl, rfl, rfl⟩

end BillboardScraper

namespace BillboardScraper

/-- C10: the strict-equality-with-null guard of both extractor revisions is
unreachable.  No query chain can evaluate to JavaScript null, so neither
revision of parseHtml can raise the unexpected-HTML error; an absent
element short-circuits the chain to undefined (and the extractor then
yields an entry whose title field is undefined, shown on a concrete row),
while a childless element makes the chain throw a TypeError instead. -/
theorem c10_null_guard_unreachable :
    (∀ q : Option HtmlElem, qChain q ≠ Except.ok JSVal.nullV)
    ∧ (∀ page : ChartPage, V1.parseHtml page ≠ Except.error JsErr.unexpectedHtml)
    ∧ (∀ page : ChartPage, V2.parseHtml page ≠ Except.error JsErr.unexpectedHtml)
    ∧ (∀ q : Option HtmlElem, q = none → qChain q = Except.ok JSVal.undef)
    ∧ (∀ el : HtmlElem, el.firstChild = none → qChain (some el) = Except.error JsErr.typeError)
    ∧ V1.parseRows [noTitleRow] 0 = Except.ok [⟨1, JSVal.str "Fine Artist", JSVal.undef⟩]
    ∧ V2.parseRows [noTitleRow]
        = Except.ok [⟨JSVal.str "7", JSVal.str "Fine Artist", JSVal.undef⟩] := by
  refine ⟨qChain_ne_nullV, ?_, ?_, ?_, ?_, by decide, by decide⟩
  · intro page
    unfold V1.parseHtml
    split
    · simp
    · exact V1.parseRows_v1_ne_unexpected page.rows 0
  · intro page
    exact V2.parseRows_v2_ne_unexpected page.rows
  · intro q hq
    rw [hq]
    rfl
  · intro el hel
    simp [qChain, hel]

/-- Witness for C10 at concrete inputs: an absent element gives undefined,
a childless element gives a TypeError. -/
theorem c10_null_guard_unreachable_witness :
    qChain none = Except.ok JSVal.undef
    ∧ qChain (some ⟨none⟩) = Except.error JsErr.typeError :=
  ⟨c10_null_guard_unreachable.2.2.2.1 none rfl,
   c10_null_guard_unreachable.2.2.2.2.1 ⟨none⟩ rfl⟩

/-- C4 evidence: the year-range extractor does reject a 99-row page softly
(zero entries, no raise), but on a 100-row page whose first row has no
title element it does not raise the specified fatal error: it yields all
100 entries, the first with an undefined title.  The single-year extractor
does not reject a 99-row page at all: it yields 99 entries. -/
theorem c4_structural_failure_evidence :
    V1.parseHtml page99 = Except.ok []
    ∧ V1.parseHtml pageMissingTitle = Except.ok missingTitleEntries
    ∧ V2.parseHtml page99
        = Except.ok (List.replicate 99
            ⟨JSVal.str "7", JSVal.str "Fine Artist", JSVal.str "Fine Title"⟩) :=
  ⟨by decide, by decide, by decide⟩

end BillboardScraper

namespace BillboardScraper

/-- Unfolding of the non-empty-string chain test. -/
theorem nonEmptyOkStr_spec (x : Except JsErr JSVal) (h : nonEmptyOkStr x = true) :
    ∃ s, x = Except.ok (JSVal.str s) ∧ s ≠ "" := by
  match x with
  | Except.ok (JSVal.str s) =>
    refine ⟨s, rfl, ?_⟩
    simpa [nonEmptyOkStr] using h
  | Except.ok JSVal.nullV => simp [nonEmptyOkStr] at h
  | Except.ok JSVal.undef => simp [nonEmptyOkStr] at h
  | Except.error e => simp [nonEmptyOkStr] at h

/-- Unfolding of the rank-label chain test. -/
theorem posOk_spec (x : Except JsErr JSVal) (n : Nat)
    (h : (match x with
          | Except.ok (JSVal.str s) => s == Nat.repr n
          | _ => false) = true) :
    x = Except.ok (JSVal.str (Nat.repr n)) := by
  match x with
  | Except.ok (JSVal.str s) =>
    simp only [beq_iff_eq] at h
    rw [h]
  | Except.ok JSVal.nullV => simp at h
  | Except.ok JSVal.undef => simp at h
  | Except.error e => simp at h

/-- The year-range row loop on structurally sound rows: one entry per row,
ranks counting up from the starting index plus one, all fields non-empty
strings. -/
theorem V1.parseRows_v1_good : ∀ (rows : List ChartRow) (i : Nat),
    (∀ r ∈ rows, goodRow r = true) →
    ∃ es, V1.parseRows rows i = Except.ok es
      ∧ es.length = rows.length
      ∧ es.map V1.Entry1.position = List.range' (i + 1) rows.length
      ∧ (∀ e ∈ es, (∃ t, e.title = JSVal.str t ∧ t ≠ "")
          ∧ (∃ a, e.artist = JSVal.str a ∧ a ≠ "")) := by
  intro rows
  induction rows with
  | nil =>
    intro i _
    exact ⟨[], rfl, rfl, by simp, by simp⟩
  | cons row rest ih =>
    intro i h
    have hrow := h row (List.mem_cons_self row rest)
    rw [goodRow, Bool.and_eq_true] at hrow
    obtain ⟨t, ht, htne⟩ := nonEmptyOkStr_spec _ hrow.1
    obtain ⟨a, ha, hane⟩ := nonEmptyOkStr_spec _ hrow.2
    obtain ⟨es, hes, hlen, hpos, hfields⟩ :=
      ih (i + 1) (fun r hr => h r (List.mem_cons_of_mem _ hr))
    refine ⟨⟨i + 1, JSVal.str a, JSVal.str t⟩ :: es, ?_, ?_, ?_, ?_⟩
    · simp only [V1.parseRows, ht, ha]
      rw [if_neg (by simp), hes]
    · simp [hlen]
    · simp only [List.length_cons, List.map_cons, List.range'_succ, hpos, hlen]
    · intro e he
      rcases List.mem_cons.mp he with he1 | he2
      · subst he1
        exact ⟨⟨t, rfl, htne⟩, ⟨a, rfl, hane⟩⟩
      · exact hfields e he2

/-- The single-year row loop on structurally sound rows carrying given rank
labels: one entry per row, rank fields exactly the given numerals, all
fields non-empty strings. -/
theorem V2.parseRows_v2_good : ∀ (rows : List ChartRow) (ns : List Nat),
    List.Forall₂ (fun row n => goodRowPos row n = true) rows ns →
    ∃ es, V2.parseRows rows = Except.ok es
      ∧ es.length = rows.length
      ∧ es.map V2.Entry2.position = ns.map (fun n => JSVal.str (Nat.repr n))
      ∧ (∀ e ∈ es, (∃ t, e.title = JSVal.str t ∧ t ≠ "")
          ∧ (∃ a, e.artist = JSVal.str a ∧ a ≠ "")) := by
  intro rows ns hf
  induction hf with
  | nil => exact ⟨[], rfl, rfl, rfl, by simp⟩
  | @cons row n rest ms hrn _ ih =>
    rw [goodRowPos, Bool.and_eq_true] at hrn
    have hp := posOk_spec _ _ hrn.1
    rw [goodRow, Bool.and_eq_true] at hrn
    obtain ⟨t, ht, htne⟩ := nonEmptyOkStr_spec _ hrn.2.1
    obtain ⟨a, ha, hane⟩ := nonEmptyOkStr_spec _ hrn.2.2
    obtain ⟨es, hes, hlen, hpos, hfields⟩ := ih
    refine ⟨⟨JSVal.str (Nat.repr n), JSVal.str a, JSVal.str t⟩ :: es, ?_, ?_, ?_, ?_⟩
    · simp only [V2.parseRows, hp, ht, ha]
      rw [if_neg (by simp), hes]
    · simp [hlen]
    · simp only [List.map_cons]
      rw [hpos]
    · intro e he
      rcases List.mem_cons.mp he with he1 | he2
      · subst he1
        exact ⟨⟨t, rfl, htne⟩, ⟨a, rfl, hane⟩⟩
      · exact hfields e he2

end BillboardScraper

namespace BillboardScraper

/-- C5: every well-formed source page accepted by an extractor yields
exactly 100 entries with non-empty artist and title and ranks 1 to 100 in
strictly ascending order: in the year-range revision the ranks are the row
indices 1..100 by construction; in the single-year revision they are the
rank labels, which a well-formed page carries as the numerals 1..100 in
order. -/
theorem c5_wellformed_page_invariant :
    (∀ page : ChartPage, page.rows.length = 100 →
      (∀ r ∈ page.rows, goodRow r = true) →
      ∃ es, V1.parseHtml page = Except.ok es
        ∧ es.length = 100
        ∧ es.map V1.Entry1.position = List.range' 1 100
        ∧ (∀ e ∈ es, (∃ t, e.title = JSVal.str t ∧ t ≠ "")
            ∧ (∃ a, e.artist = JSVal.str a ∧ a ≠ "")))
    ∧ (∀ page : ChartPage,
      List.Forall₂ (fun row n => goodRowPos row n = true) page.rows (List.range' 1 100) →
      ∃ es, V2.parseHtml page = Except.ok es
        ∧ es.length = 100
        ∧ es.map V2.Entry2.position = (List.range' 1 100).map (fun n => JSVal.str (Nat.repr n))
        ∧ (∀ e ∈ es, (∃ t, e.title = JSVal.str t ∧ t ≠ "")
            ∧ (∃ a, e.artist = JSVal.str a ∧ a ≠ ""))) := by
  constructor
  · intro page h100 hgood
    obtain ⟨es, hes, hlen, hpos, hfields⟩ := V1.parseRows_v1_good page.rows 0 hgood
    refine ⟨es, ?_, ?_, ?_, hfields⟩
    · unfold V1.parseHtml
      rw [if_neg (by omega), hes]
    · rw [hlen, h100]
    · rw [hpos, h100]
  · intro page hf
    have hlen2 : page.rows.length = 100 := by
      have := List.Forall₂.length_eq hf
      simpa using this
    obtain ⟨es, hes, hlen, hpos, hfields⟩ := V2.parseRows_v2_good page.rows (List.range' 1 100) hf
    refine ⟨es, ?_, ?_, hpos, hfields⟩
    · unfold V2.parseHtml
      rw [hes]
    · rw [hlen, hlen2]

/-- Witness for C5 at concrete well-formed pages: 100 fully populated rows
for the year-range extractor, and the same with rank labels 1..100 for the
single-year extractor. -/
theorem c5_wellformed_page_invariant_witness :
    (∃ es, V1.parseHtml page100good = Except.ok es
      ∧ es.length = 100
      ∧ es.map V1.Entry1.position = List.range' 1 100
      ∧ (∀ e ∈ es, (∃ t, e.title = JSVal.str t ∧ t ≠ "")
          ∧ (∃ a, e.artist = JSVal.str a ∧ a ≠ "")))
    ∧ (∃ es, V2.parseHtml page100pos = Except.ok es
      ∧ es.length = 100
      ∧ es.map V2.Entry2.position = (List.range' 1 100).map (fun n => JSVal.str (Nat.repr n))
      ∧ (∀ e ∈ es, (∃ t, e.title = JSVal.str t ∧ t ≠ "")
          ∧ (∃ a, e.artist = JSVal.str a ∧ a ≠ ""))) := by
  constructor
  · exact c5_wellformed_page_invariant.1 page100good (by decide)
      (by decide)
  · refine c5_wellformed_page_invariant.2 page100pos ?_
    show List.Forall₂ (fun row n => goodRowPos row n = true)
      ((List.range' 1 100).map goodRowNum) (List.range' 1 100)
    rw [List.forall₂_map_left_iff]
    rw [List.forall₂_same]
    decide

end BillboardScraper

namespace BillboardScraper

/-- The year-range insert loop either processes every line, returning the
transaction extended by the corrected rows of the file in order, or raises
the first parse or insert error, for every starting transaction state. -/
theorem V1.storeLoop_v1_spec (ins : RowJ → Bool) : ∀ (lines : List (Option RowJ))
    (pending : List RowJ),
    (∃ rows, V1.parsedRows lines = some rows ∧ rows.all ins = true ∧
      V1.storeLoop ins lines pending = Except.ok (pending ++ rows))
    ∨ (∃ e, V1.storeLoop ins lines pending = Except.error e) := by
  intro lines
  induction lines with
  | nil =>
    intro pending
    exact Or.inl ⟨[], rfl, rfl, by simp [V1.storeLoop]⟩
  | cons l rest ih =>
    intro pending
    match l with
    | none => exact Or.inr ⟨StoreErr.parseErr, rfl⟩
    | some v =>
      by_cases hins : ins (applyCorrection v)
      · rcases ih (pending ++ [applyCorrection v]) with ⟨rows, hp, hall, hloop⟩ | ⟨e, he⟩
        · refine Or.inl ⟨applyCorrection v :: rows, ?_, ?_, ?_⟩
          · simp [V1.parsedRows, hp]
          · simp [hins, hall]
          · simp only [V1.storeLoop, hins, if_true]
            rw [hloop]
            simp
        · refine Or.inr ⟨e, ?_⟩
          simp only [V1.storeLoop, hins, if_true]
          exact he
      · refine Or.inr ⟨StoreErr.insertErr (applyCorrection v), ?_⟩
        simp [V1.storeLoop, hins]

/-- The single-year insert loop: the same dichotomy, without the
correction. -/
theorem V2.storeLoop_v2_spec (ins : RowJ → Bool) : ∀ (lines : List (Option RowJ))
    (pending : List RowJ),
    (∃ rows, V2.parsedRows lines = some rows ∧ rows.all ins = true ∧
      V2.storeLoop ins lines pending = Except.ok (pending ++ rows))
    ∨ (∃ e, V2.storeLoop ins lines pending = Except.error e) := by
  intro lines
  induction lines with
  | nil =>
    intro pending
    exact Or.inl ⟨[], rfl, rfl, by simp [V2.storeLoop]⟩
  | cons l rest ih =>
    intro pending
    match l with
    | none => exact Or.inr ⟨StoreErr.parseErr, rfl⟩
    | some v =>
      by_cases hins : ins v
      · rcases ih (pending ++ [v]) with ⟨rows, hp, hall, hloop⟩ | ⟨e, he⟩
        · refine Or.inl ⟨v :: rows, ?_, ?_, ?_⟩
          · simp [V2.parsedRows, hp]
          · simp [hins, hall]
          · simp only [V2.storeLoop, hins, if_true]
            rw [hloop]
            simp
        · refine Or.inr ⟨e, ?_⟩
          simp only [V2.storeLoop, hins, if_true]
          exact he
      · refine Or.inr ⟨StoreErr.insertErr v, ?_⟩
        simp [V2.storeLoop, hins]

/-- C2: for every record file processed by either revision of the Loader,
either every parsed (and corrected) row of the file is inserted and the
transaction commits, leaving the database extended by exactly those rows,
or an error is raised at some row and the transaction rolls back, leaving
the database exactly as before with the triggering error re-raised to the
caller; no partial commit is possible. -/
theorem c2_store_atomicity (ins : RowJ → Bool) (lines : List (Option RowJ))
    (db : List RowJ) :
    ((∃ rows, V1.parsedRows lines = some rows ∧ rows.all ins = true ∧
        V1.store ins true lines db = (Except.ok (), db ++ rows))
      ∨ (∃ e, V1.store ins true lines db = (Except.error e, db)))
    ∧ ((∃ rows, V2.parsedRows lines = some rows ∧ rows.all ins = true ∧
        V2.store ins true lines db = (Except.ok (), db ++ rows))
      ∨ (∃ e, V2.store ins true lines db = (Except.error e, db))) := by
  constructor
  · rcases V1.storeLoop_v1_spec ins lines [] with ⟨rows, hp, hall, hloop⟩ | ⟨e, he⟩
    · refine Or.inl ⟨rows, hp, hall, ?_⟩
      unfold V1.store
      rw [hloop]
      simp
    · refine Or.inr ⟨e, ?_⟩
      unfold V1.store
      rw [he]
      simp
  · rcases V2.storeLoop_v2_spec ins lines [] with ⟨rows, hp, hall, hloop⟩ | ⟨e, he⟩
    · refine Or.inl ⟨rows, hp, hall, ?_⟩
      unfold V2.store
      rw [hloop]
      simp
    · refine Or.inr ⟨e, ?_⟩
      unfold V2.store
      rw [he]
      simp

end BillboardScraper

namespace BillboardScraper

/-- Date-sequence facts for the year 1958, the loop evaluated once. -/
theorem c1_year_1958 : weekSeqSpec 1958 := by
  unfold weekSeqSpec
  rw [show V1.yearDates 1958 = [715298, 715305, 715312, 715319, 715326, 715333, 715340, 715347, 715354, 715361, 715368, 715375, 715382, 715389, 715396, 715403, 715410, 715417, 715424, 715431, 715438, 715445] from by decide]
  decide

/-- Date-sequence facts for the year 1959, the loop evaluated once. -/
theorem c1_year_1959 : weekSeqSpec 1959 := by
  unfold weekSeqSpec
  rw [show V1.yearDates 1959 = [715452, 715459, 715466, 715473, 715480, 715487, 715494, 715501, 715508, 715515, 715522, 715529, 715536, 715543, 715550, 715557, 715564, 715571, 715578, 715585, 715592, 715599, 715606, 715613, 715620, 715627, 715634, 715641, 715648, 715655, 715662, 715669, 715676, 715683, 715690, 715697, 715704, 715711, 715718, 715725, 715732, 715739, 715746, 715753, 715760, 715767, 715774, 715781, 715788, 715795, 715802, 715809, 715816] from by decide]
  decide

/-- Date-sequence facts for the year 1960, the loop evaluated once. -/
theorem c1_year_1960 : weekSeqSpec 1960 := by
  unfold weekSeqSpec
  rw [show V1.yearDates 1960 = [715823, 715830, 715837, 715844, 715851, 715858, 715865, 715872, 715879, 715886, 715893, 715900, 715907, 715914, 715921, 715928, 715935, 715942, 715949, 715956, 715963, 715970, 715977, 715984, 715991, 715998, 716005, 716012, 716019, 716026, 716033, 716040, 716047, 716054, 716061, 716068, 716075, 716082, 716089, 716096, 716103, 716110, 716117, 716124, 716131, 716138, 716145, 716152, 716159, 716166, 716173, 716180] from by decide]
  decide

/-- Date-sequence facts for the year 1961, the loop evaluated once. -/
theorem c1_year_1961 : weekSeqSpec 1961 := by
  unfold weekSeqSpec
  rw [show V1.yearDates 1961 = [716187, 716194, 716201, 716208, 716215, 716222, 716229, 716236, 716243, 716250, 716257, 716264, 716271, 716278, 716285, 716292, 716299, 716306, 716313, 716320, 716327, 716334, 716341, 716348, 716355, 716362, 716369, 716376, 716383, 716390, 716397, 716404, 716411, 716418, 716425, 716432, 716439, 716446, 716453, 716460, 716467, 716474, 716481, 716488, 716495, 716502, 716509, 716516, 716523, 716530, 716537] from by decide]
  decide

/-- Date-sequence facts for the year 1962, the loop evaluated once. -/
theorem c1_year_1962 : weekSeqSpec 1962 := by
  unfold weekSeqSpec
  rw [show V1.yearDates 1962 = [716551, 716558, 716565, 716572, 716579, 716586, 716593, 716600, 716607, 716614, 716621, 716628, 716635, 716642, 716649, 716656, 716663, 716670, 716677, 716684, 716691, 716698, 716705, 716712, 716719, 716726, 716733, 716740, 716747, 716754, 716761, 716768, 716775, 716782, 716789, 716796, 716803, 716810, 716817, 716824, 716831, 716838, 716845, 716852, 716859, 716866, 716873, 716880, 716887, 716894, 716901, 716908] from by decide]
  decide

/-- Date-sequence facts for the year 1963, the loop evaluated once. -/
theorem c1_year_1963 : weekSeqSpec 1963 := by
  unfold weekSeqSpec
  rw [show V1.yearDates 1963 = [716915, 716922, 716929, 716936, 716943, 716950, 716957, 716964, 716971, 716978, 716985, 716992, 716999, 717006, 717013, 717020, 717027, 717034, 717041, 717048, 717055, 717062, 717069, 717076, 717083, 717090, 717097, 717104, 717111, 717118, 717125, 717132, 717139, 717146, 717153, 717160, 717167, 717174, 717181, 717188, 717195, 717202, 717209, 717216, 717223, 717230, 717237, 717244, 717251, 717258, 717265, 717272] from by decide]
  decide

/-- Date-sequence facts for the year 1964, the loop evaluated once. -/
theorem c1_year_1964 : weekSeqSpec 1964 := by
  unfold weekSeqSpec
  rw [show V1.yearDates 1964 = [717279, 717286, 717293, 717300, 717307, 717314, 717321, 717328, 717335, 717342, 717349, 717356, 717363, 717370, 717377, 717384, 717391, 717398, 717405, 717412, 717419, 717426, 717433, 717440, 717447, 717454, 717461, 717468, 717475, 717482, 717489, 717496, 717503, 717510, 717517, 717524, 717531, 717538, 717545, 717552, 717559, 717566, 717573, 717580, 717587, 717594, 717601, 717608, 717615, 717622, 717629, 717636, 717643] from by decide]
  decide

/-- Date-sequence facts for the year 1965, the loop evaluated once. -/
theorem c1_year_1965 : weekSeqSpec 1965 := by
  unfold weekSeqSpec
  rw [show V1.yearDates 1965 = [717650, 717657, 717664, 717671, 717678, 717685, 717692, 717699, 717706, 717713, 717720, 717727, 717734, 717741, 717748, 717755, 717762, 717769, 717776, 717783, 717790, 717797, 717804, 717811, 717818, 717825, 717832, 717839, 717846, 717853, 717860, 717867, 717874, 717881, 717888, 717895, 717902, 717909, 717916, 717923, 717930, 717937, 717944, 717951, 717958, 717965, 717972, 717979, 717986, 717993, 718000, 718007] from by decide]
  decide

/-- Date-sequence facts for the year 1966, the loop evaluated once. -/
theorem c1_year_1966 : weekSeqSpec 1966 := by
  unfold weekSeqSpec
  rw [show V1.yearDates 1966 = [718014, 718021, 718028, 718035, 718042, 718049, 718056, 718063, 718070, 718077, 718084, 718091, 718098, 718105, 718112, 718119, 718126, 718133, 718140, 718147, 718154, 718161, 718168, 718175, 718182, 718189, 718196, 718203, 718210, 718217, 718224, 718231, 718238, 718245, 718252, 718259, 718266, 718273, 718280, 718287, 718294, 718301, 718308, 718315, 718322, 718329, 718336, 718343, 718350, 718357, 718364, 718371] from by decide]
  decide

/-- Date-sequence facts for the year 1967, the loop evaluated once. -/
theorem c1_year_1967 : weekSeqSpec 1967 := by
  unfold weekSeqSpec
  rw [show V1.yearDates 1967 = [718378, 718385, 718392, 718399, 718406, 718413, 718420, 718427, 718434, 718441, 718448, 718455, 718462, 718469, 718476, 718483, 718490, 718497, 718504, 718511, 718518, 718525, 718532, 718539, 718546, 718553, 718560, 718567, 718574, 718581, 718588, 718595, 718602, 718609, 718616, 718623, 718630, 718637, 718644, 718651, 718658, 718665, 718672, 718679, 718686, 718693, 718700, 718707, 718714, 718721, 718728, 718735] from by decide]
  decide

/-- Date-sequence facts for the year 1968, the loop evaluated once. -/
theorem c1_year_1968 : weekSeqSpec 1968 := by
  unfold weekSeqSpec
  rw [show V1.yearDates 1968 = [718742, 718749, 718756, 718763, 718770, 718777, 718784, 718791, 718798, 718805, 718812, 718819, 718826, 718833, 718840, 718847, 718854, 718861, 718868, 718875, 718882, 718889, 718896, 718903, 718910, 718917, 718924, 718931, 718938, 718945, 718952, 718959, 718966, 718973, 718980, 718987, 718994, 719001, 719008, 719015, 719022, 719029, 719036, 719043, 719050, 719057, 719064, 719071, 719078, 719085, 719092, 719099] from by decide]
  decide

/-- Date-sequence facts for the year 1969, the loop evaluated once. -/
theorem c1_year_1969 : weekSeqSpec 1969 := by
  unfold weekSeqSpec
  rw [show V1.yearDates 1969 = [719106, 719113, 719120, 719127, 719134, 719141, 719148, 719155, 719162, 719169, 719176, 719183, 719190, 719197, 719204, 719211, 719218, 719225, 719232, 719239, 719246, 719253, 719260, 719267, 719274, 719281, 719288, 719295, 719302, 719309, 719316, 719323, 719330, 719337, 719344, 719351, 719358, 719365, 719372, 719379, 719386, 719393, 719400, 719407, 719414, 719421, 719428, 719435, 719442, 719449, 719456, 719463] from by decide]
  decide

/-- Date-sequence facts for the year 1970, the loop evaluated once. -/
theorem c1_year_1970 : weekSeqSpec 1970 := by
  unfold weekSeqSpec
  rw [show V1.yearDates 1970 = [719470, 719477, 719484, 719491, 719498, 719505, 719512, 719519, 719526, 719533, 719540, 719547, 719554, 719561, 719568, 719575, 719582, 719589, 719596, 719603, 719610, 719617, 719624, 719631, 719638, 719645, 719652, 719659, 719666, 719673, 719680, 719687, 719694, 719701, 719708, 719715, 719722, 719729, 719736, 719743, 719750, 719757, 719764, 719771, 719778, 719785, 719792, 719799, 719806, 719813, 719820, 719827, 719834] from by decide]
  decide

/-- Date-sequence facts for the year 1971, the loop evaluated once. -/
theorem c1_year_1971 : weekSeqSpec 1971 := by
  unfold weekSeqSpec
  rw [show V1.yearDates 1971 = [719841, 719848, 719855, 719862, 719869, 719876, 719883, 719890, 719897, 719904, 719911, 719918, 719925, 719932, 719939, 719946, 719953, 719960, 719967, 719974, 719981, 719988, 719995, 720002, 720009, 720016, 720023, 720030, 720037, 720044, 720051, 720058, 720065, 720072, 720079, 720086, 720093, 720100, 720107, 720114, 720121, 720128, 720135, 720142, 720149, 720156, 720163, 720170, 720177, 720184, 720191, 720198] from by decide]
  decide

/-- Date-sequence facts for the year 1972, the loop evaluated once. -/
theorem c1_year_1972 : weekSeqSpec 1972 := by
  unfold weekSeqSpec
  rw [show V1.yearDates 1972 = [720205, 720212, 720219, 720226, 720233, 720240, 720247, 720254, 720261, 720268, 720275, 720282, 720289, 720296, 720303, 720310, 720317, 720324, 720331, 720338, 720345, 720352, 720359, 720366, 720373, 720380, 720387, 720394, 720401, 720408, 720415, 720422, 720429, 720436, 720443, 720450, 720457, 720464, 720471, 720478, 720485, 720492, 720499, 720506, 720513, 720520, 720527, 720534, 720541, 720548, 720555, 720562] from by decide]
  decide

/-- Date-sequence facts for the year 1973, the loop evaluated once. -/
theorem c1_year_1973 : weekSeqSpec 1973 := by
  unfold weekSeqSpec
  rw [show V1.yearDates 1973 = [720569, 720576, 720583, 720590, 720597, 720604, 720611, 720618, 720625, 720632, 720639, 720646, 720653, 720660, 720667, 720674, 720681, 720688, 720695, 720702, 720709, 720716, 720723, 720730, 720737, 720744, 720751, 720758, 720765, 720772, 720779, 720786, 720793, 720800, 720807, 720814, 720821, 720828, 720835, 720842, 720849, 720856, 720863, 720870, 720877, 720884, 720891, 720898, 720905, 720912, 720919, 720926] from by decide]
  decide

/-- Date-sequence facts for the year 1974, the loop evaluated once. -/
theorem c1_year_1974 : weekSeqSpec 1974 := by
  unfold weekSeqSpec
  rw [show V1.yearDates 1974 = [720933, 720940, 720947, 720954, 720961, 720968, 720975, 720982, 720989, 720996, 721003, 721010, 721017, 721024, 721031, 721038, 721045, 721052, 721059, 721066, 721073, 721080, 721087, 721094, 721101, 721108, 721115, 721122, 721129, 721136, 721143, 721150, 721157, 721164, 721171, 721178, 721185, 721192, 721199, 721206, 721213, 721220, 721227, 721234, 721241, 721248, 721255, 721262, 721269, 721276, 721283, 721290] from by decide]
  decide

/-- Date-sequence facts for the year 1975, the loop evaluated once. -/
theorem c1_year_1975 : weekSeqSpec 1975 := by
  unfold weekSeqSpec
  rw [show V1.yearDates 1975 = [721297, 721304, 721311, 721318, 721325, 721332, 721339, 721346, 721353, 721360, 721367, 721374, 721381, 721388, 721395, 721402, 721409, 721416, 721423, 721430, 721437, 721444, 721451, 721458, 721465, 721472, 721479, 721486, 721493, 721500, 721507, 721514, 721521, 721528, 721535, 721542, 721549, 721556, 721563, 721570, 721577, 721584, 721591, 721598, 721605, 721612, 721619, 721626, 721633, 721640, 721647, 721654] from by decide]
  decide

/-- Date-sequence facts for the year 1976, the loop evaluated once. -/
theorem c1_year_1976 : weekSeqSpec 1976 := by
  unfold weekSeqSpec
  rw [show V1.yearDates 1976 = [721661, 721668, 721675, 721682, 721689, 721696, 721703, 721710, 721717, 721724, 721731, 721738, 721745, 721752, 721759, 721766, 721773, 721780, 721787, 721794, 721801, 721808, 721815, 721822, 721829, 721836, 721843, 721850, 721857, 721864, 721871, 721878, 721885, 721892, 721899, 721906, 721913, 721920, 721927, 721934, 721941, 721948, 721955, 721962, 721969, 721976, 721983, 721990, 721997, 722004, 722011, 722018, 722025] from by decide]
  decide

/-- Date-sequence facts for the year 1977, the loop evaluated once. -/
theorem c1_year_1977 : weekSeqSpec 1977 := by
  unfold weekSeqSpec
  rw [show V1.yearDates 1977 = [722032, 722039, 722046, 722053, 722060, 722067, 722074, 722081, 722088, 722095, 722102, 722109, 722116, 722123, 722130, 722137, 722144, 722151, 722158, 722165, 722172, 722179, 722186, 722193, 722200, 722207, 722214, 722221, 722228, 722235, 722242, 722249, 722256, 722263, 722270, 722277, 722284, 722291, 722298, 722305, 722312, 722319, 722326, 722333, 722340, 722347, 722354, 722361, 722368, 722375, 722382, 722389] from by decide]
  decide

/-- Date-sequence facts for the year 1978, the loop evaluated once. -/
theorem c1_year_1978 : weekSeqSpec 1978 := by
  unfold weekSeqSpec
  rw [show V1.yearDates 1978 = [722396, 722403, 722410, 722417, 722424, 722431, 722438, 722445, 722452, 722459, 722466, 722473, 722480, 722487, 722494, 722501, 722508, 722515, 722522, 722529, 722536, 722543, 722550, 722557, 722564, 722571, 722578, 722585, 722592, 722599, 722606, 722613, 722620, 722627, 722634, 722641, 722648, 722655, 722662, 722669, 722676, 722683, 722690, 722697, 722704, 722711, 722718, 722725, 722732, 722739, 722746, 722753] from by decide]
  decide

/-- Date-sequence facts for the year 1979, the loop evaluated once. -/
theorem c1_year_1979 : weekSeqSpec 1979 := by
  unfold weekSeqSpec
  rw [show V1.yearDates 1979 = [722760, 722767, 722774, 722781, 722788, 722795, 722802, 722809, 722816, 722823, 722830, 722837, 722844, 722851, 722858, 722865, 722872, 722879, 722886, 722893, 722900, 722907, 722914, 722921, 722928, 722935, 722942, 722949, 722956, 722963, 722970, 722977, 722984, 722991, 722998, 723005, 723012, 723019, 723026, 723033, 723040, 723047, 723054, 723061, 723068, 723075, 723082, 723089, 723096, 723103, 723110, 723117] from by decide]
  decide

/-- Date-sequence facts for the year 1980, the loop evaluated once. -/
theorem c1_year_1980 : weekSeqSpec 1980 := by
  unfold weekSeqSpec
  rw [show V1.yearDates 1980 = [723124, 723131, 723138, 723145, 723152, 723159, 723166, 723173, 723180, 723187, 723194, 723201, 723208, 723215, 723222, 723229, 723236, 723243, 723250, 723257, 723264, 723271, 723278, 723285, 723292, 723299, 723306, 723313, 723320, 723327, 723334, 723341, 723348, 723355, 723362, 723369, 723376, 723383, 723390, 723397, 723404, 723411, 723418, 723425, 723432, 723439, 723446, 723453, 723460, 723467, 723474, 723481] from by decide]
  decide

/-- Date-sequence facts for the year 1981, the loop evaluated once. -/
theorem c1_year_1981 : weekSeqSpec 1981 := by
  unfold weekSeqSpec
  rw [show V1.yearDates 1981 = [723488, 723495, 723502, 723509, 723516, 723523, 723530, 723537, 723544, 723551, 723558, 723565, 723572, 723579, 723586, 723593, 723600, 723607, 723614, 723621, 723628, 723635, 723642, 723649, 723656, 723663, 723670, 723677, 723684, 723691, 723698, 723705, 723712, 723719, 723726, 723733, 723740, 723747, 723754, 723761, 723768, 723775, 723782, 723789, 723796, 723803, 723810, 723817, 723824, 723831, 723838, 723845, 723852] from by decide]
  decide

/-- Date-sequence facts for the year 1982, the loop evaluated once. -/
theorem c1_year_1982 : weekSeqSpec 1982 := by
  unfold weekSeqSpec
  rw [show V1.yearDates 1982 = [723859, 723866, 723873, 723880, 723887, 723894, 723901, 723908, 723915, 723922, 723929, 723936, 723943, 723950, 723957, 723964, 723971, 723978, 723985, 723992, 723999, 724006, 724013, 724020, 724027, 724034, 724041, 724048, 724055, 724062, 724069, 724076, 724083, 724090, 724097, 724104, 724111, 724118, 724125, 724132, 724139, 724146, 724153, 724160, 724167, 724174, 724181, 724188, 724195, 724202, 724209, 724216] from by decide]
  decide

/-- Date-sequence facts for the year 1983, the loop evaluated once. -/
theorem c1_year_1983 : weekSeqSpec 1983 := by
  unfold weekSeqSpec
  rw [show V1.yearDates 1983 = [724223, 724230, 724237, 724244, 724251, 724258, 724265, 724272, 724279, 724286, 724293, 724300, 724307, 724314, 724321, 724328, 724335, 724342, 724349, 724356, 724363, 724370, 724377, 724384, 724391, 724398, 724405, 724412, 724419, 724426, 724433, 724440, 724447, 724454, 724461, 724468, 724475, 724482, 724489, 724496, 724503, 724510, 724517, 724524, 724531, 724538, 724545, 724552, 724559, 724566, 724573, 724580] from by decide]
  decide

/-- Date-sequence facts for the year 1984, the loop evaluated once. -/
theorem c1_year_1984 : weekSeqSpec 1984 := by
  unfold weekSeqSpec
  rw [show V1.yearDates 1984 = [724587, 724594, 724601, 724608, 724615, 724622, 724629, 724636, 724643, 724650, 724657, 724664, 724671, 724678, 724685, 724692, 724699, 724706, 724713, 724720, 724727, 724734, 724741, 724748, 724755, 724762, 724769, 724776, 724783, 724790, 724797, 724804, 724811, 724818, 724825, 724832, 724839, 724846, 724853, 724860, 724867, 724874, 724881, 724888, 724895, 724902, 724909, 724916, 724923, 724930, 724937, 724944] from by decide]
  decide

/-- Date-sequence facts for the year 1985, the loop evaluated once. -/
theorem c1_year_1985 : weekSeqSpec 1985 := by
  unfold weekSeqSpec
  rw [show V1.yearDates 1985 = [724951, 724958, 724965, 724972, 724979, 724986, 724993, 725000, 725007, 725014, 725021, 725028, 725035, 725042, 725049, 725056, 725063, 725070, 725077, 725084, 725091, 725098, 725105, 725112, 725119, 725126, 725133, 725140, 725147, 725154, 725161, 725168, 725175, 725182, 725189, 725196, 725203, 725210, 725217, 725224, 725231, 725238, 725245, 725252, 725259, 725266, 725273, 725280, 725287, 725294, 725301, 725308] from by decide]
  decide

/-- Date-sequence facts for the year 1986, the loop evaluated once. -/
theorem c1_year_1986 : weekSeqSpec 1986 := by
  unfold weekSeqSpec
  rw [show V1.yearDates 1986 = [725315, 725322, 725329, 725336, 725343, 725350, 725357, 725364, 725371, 725378, 725385, 725392, 725399, 725406, 725413, 725420, 725427, 725434, 725441, 725448, 725455, 725462, 725469, 725476, 725483, 725490, 725497, 725504, 725511, 725518, 725525, 725532, 725539, 725546, 725553, 725560, 725567, 725574, 725581, 725588, 725595, 725602, 725609, 725616, 725623, 725630, 725637, 725644, 725651, 725658, 725665, 725672] from by decide]
  decide

/-- Date-sequence facts for the year 1987, the loop evaluated once. -/
theorem c1_year_1987 : weekSeqSpec 1987 := by
  unfold weekSeqSpec
  rw [show V1.yearDates 1987 = [725679, 725686, 725693, 725700, 725707, 725714, 725721, 725728, 725735, 725742, 725749, 725756, 725763, 725770, 725777, 725784, 725791, 725798, 725805, 725812, 725819, 725826, 725833, 725840, 725847, 725854, 725861, 725868, 725875, 725882, 725889, 725896, 725903, 725910, 725917, 725924, 725931, 725938, 725945, 725952, 725959, 725966, 725973, 725980, 725987, 725994, 726001, 726008, 726015, 726022, 726029, 726036, 726043] from by decide]
  decide

/-- Date-sequence facts for the year 1988, the loop evaluated once. -/
theorem c1_year_1988 : weekSeqSpec 1988 := by
  unfold weekSeqSpec
  rw [show V1.yearDates 1988 = [726050, 726057, 726064, 726071, 726078, 726085, 726092, 726099, 726106, 726113, 726120, 726127, 726134, 726141, 726148, 726155, 726162, 726169, 726176, 726183, 726190, 726197, 726204, 726211, 726218, 726225, 726232, 726239, 726246, 726253, 726260, 726267, 726274, 726281, 726288, 726295, 726302, 726309, 726316, 726323, 726330, 726337, 726344, 726351, 726358, 726365, 726372, 726379, 726386, 726393, 726400, 726407] from by decide]
  decide

/-- Date-sequence facts for the year 1989, the loop evaluated once. -/
theorem c1_year_1989 : weekSeqSpec 1989 := by
  unfold weekSeqSpec
  rw [show V1.yearDates 1989 = [726414, 726421, 726428, 726435, 726442, 726449, 726456, 726463, 726470, 726477, 726484, 726491, 726498, 726505, 726512, 726519, 726526, 726533, 726540, 726547, 726554, 726561, 726568, 726575, 726582, 726589, 726596, 726603, 726610, 726617, 726624, 726631, 726638, 726645, 726652, 726659, 726666, 726673, 726680, 726687, 726694, 726701, 726708, 726715, 726722, 726729, 726736, 726743, 726750, 726757, 726764, 726771] from by decide]
  decide

/-- Date-sequence facts for the year 1990, the loop evaluated once. -/
theorem c1_year_1990 : weekSeqSpec 1990 := by
  unfold weekSeqSpec
  rw [show V1.yearDates 1990 = [726778, 726785, 726792, 726799, 726806, 726813, 726820, 726827, 726834, 726841, 726848, 726855, 726862, 726869, 726876, 726883, 726890, 726897, 726904, 726911, 726918, 726925, 726932, 726939, 726946, 726953, 726960, 726967, 726974, 726981, 726988, 726995, 727002, 727009, 727016, 727023, 727030, 727037, 727044, 727051, 727058, 727065, 727072, 727079, 727086, 727093, 727100, 727107, 727114, 727121, 727128, 727135] from by decide]
  decide

/-- Date-sequence facts for the year 1991, the loop evaluated once. -/
theorem c1_year_1991 : weekSeqSpec 1991 := by
  unfold weekSeqSpec
  rw [show V1.yearDates 1991 = [727142, 727149, 727156, 727163, 727170, 727177, 727184, 727191, 727198, 727205, 727212, 727219, 727226, 727233, 727240, 727247, 727254, 727261, 727268, 727275, 727282, 727289, 727296, 727303, 727310, 727317, 727324, 727331, 727338, 727345, 727352, 727359, 727366, 727373, 727380, 727387, 727394, 727401, 727408, 727415, 727422, 727429, 727436, 727443, 727450, 727457, 727464, 727471, 727478, 727485, 727492, 727499] from by decide]
  decide

/-- Date-sequence facts for the year 1992, the loop evaluated once. -/
theorem c1_year_1992 : weekSeqSpec 1992 := by
  unfold weekSeqSpec
  rw [show V1.yearDates 1992 = [727506, 727513, 727520, 727527, 727534, 727541, 727548, 727555, 727562, 727569, 727576, 727583, 727590, 727597, 727604, 727611, 727618, 727625, 727632, 727639, 727646, 727653, 727660, 727667, 727674, 727681, 727688, 727695, 727702, 727709, 727716, 727723, 727730, 727737, 727744, 727751, 727758, 727765, 727772, 727779, 727786, 727793, 727800, 727807, 727814, 727821, 727828, 727835, 727842, 727849, 727856, 727863, 727870] from by decide]
  decide

/-- Date-sequence facts for the year 1993, the loop evaluated once. -/
theorem c1_year_1993 : weekSeqSpec 1993 := by
  unfold weekSeqSpec
  rw [show V1.yearDates 1993 = [727877, 727884, 727891, 727898, 727905, 727912, 727919, 727926, 727933, 727940, 727947, 727954, 727961, 727968, 727975, 727982, 727989, 727996, 728003, 728010, 728017, 728024, 728031, 728038, 728045, 728052, 728059, 728066, 728073, 728080, 728087, 728094, 728101, 728108, 728115, 728122, 728129, 728136, 728143, 728150, 728157, 728164, 728171, 728178, 728185, 728192, 728199, 728206, 728213, 728220, 728227, 728234] from by decide]
  decide

/-- Date-sequence facts for the year 1994, the loop evaluated once. -/
theorem c1_year_1994 : weekSeqSpec 1994 := by
  unfold weekSeqSpec
  rw [show V1.yearDates 1994 = [728241, 728248, 728255, 728262, 728269, 728276, 728283, 728290, 728297, 728304, 728311, 728318, 728325, 728332, 728339, 728346, 728353, 728360, 728367, 728374, 728381, 728388, 728395, 728402, 728409, 728416, 728423, 728430, 728437, 728444, 728451, 728458, 728465, 728472, 728479, 728486, 728493, 728500, 728507, 728514, 728521, 728528, 728535, 728542, 728549, 728556, 728563, 728570, 728577, 728584, 728591, 728598] from by decide]
  decide

/-- Date-sequence facts for the year 1995, the loop evaluated once. -/
theorem c1_year_1995 : weekSeqSpec 1995 := by
  unfold weekSeqSpec
  rw [show V1.yearDates 1995 = [728605, 728612, 728619, 728626, 728633, 728640, 728647, 728654, 728661, 728668, 728675, 728682, 728689, 728696, 728703, 728710, 728717, 728724, 728731, 728738, 728745, 728752, 728759, 728766, 728773, 728780, 728787, 728794, 728801, 728808, 728815, 728822, 728829, 728836, 728843, 728850, 728857, 728864, 728871, 728878, 728885, 728892, 728899, 728906, 728913, 728920, 728927, 728934, 728941, 728948, 728955, 728962] from by decide]
  decide

/-- Date-sequence facts for the year 1996, the loop evaluated once. -/
theorem c1_year_1996 : weekSeqSpec 1996 := by
  unfold weekSeqSpec
  rw [show V1.yearDates 1996 = [728969, 728976, 728983, 728990, 728997, 729004, 729011, 729018, 729025, 729032, 729039, 729046, 729053, 729060, 729067, 729074, 729081, 729088, 729095, 729102, 729109, 729116, 729123, 729130, 729137, 729144, 729151, 729158, 729165, 729172, 729179, 729186, 729193, 729200, 729207, 729214, 729221, 729228, 729235, 729242, 729249, 729256, 729263, 729270, 729277, 729284, 729291, 729298, 729305, 729312, 729319, 729326] from by decide]
  decide

/-- Date-sequence facts for the year 1997, the loop evaluated once. -/
theorem c1_year_1997 : weekSeqSpec 1997 := by
  unfold weekSeqSpec
  rw [show V1.yearDates 1997 = [729333, 729340, 729347, 729354, 729361, 729368, 729375, 729382, 729389, 729396, 729403, 729410, 729417, 729424, 729431, 729438, 729445, 729452, 729459, 729466, 729473, 729480, 729487, 729494, 729501, 729508, 729515, 729522, 729529, 729536, 729543, 729550, 729557, 729564, 729571, 729578, 729585, 729592, 729599, 729606, 729613, 729620, 729627, 729634, 729641, 729648, 729655, 729662, 729669, 729676, 729683, 729690] from by decide]
  decide

/-- Date-sequence facts for the year 1998, the loop evaluated once. -/
theorem c1_year_1998 : weekSeqSpec 1998 := by
  unfold weekSeqSpec
  rw [show V1.yearDates 1998 = [729697, 729704, 729711, 729718, 729725, 729732, 729739, 729746, 729753, 729760, 729767, 729774, 729781, 729788, 729795, 729802, 729809, 729816, 729823, 729830, 729837, 729844, 729851, 729858, 729865, 729872, 729879, 729886, 729893, 729900, 729907, 729914, 729921, 729928, 729935, 729942, 729949, 729956, 729963, 729970, 729977, 729984, 729991, 729998, 730005, 730012, 730019, 730026, 730033, 730040, 730047, 730054, 730061] from by decide]
  decide

/-- Date-sequence facts for the year 1999, the loop evaluated once. -/
theorem c1_year_1999 : weekSeqSpec 1999 := by
  unfold weekSeqSpec
  rw [show V1.yearDates 1999 = [730068, 730075, 730082, 730089, 730096, 730103, 730110, 730117, 730124, 730131, 730138, 730145, 730152, 730159, 730166, 730173, 730180, 730187, 730194, 730201, 730208, 730215, 730222, 730229, 730236, 730243, 730250, 730257, 730264, 730271, 730278, 730285, 730292, 730299, 730306, 730313, 730320, 730327, 730334, 730341, 730348, 730355, 730362, 730369, 730376, 730383, 730390, 730397, 730404, 730411, 730418, 730425] from by decide]
  decide

/-- Date-sequence facts for the year 2000, the loop evaluated once. -/
theorem c1_year_2000 : weekSeqSpec 2000 := by
  unfold weekSeqSpec
  rw [show V1.yearDates 2000 = [730432, 730439, 730446, 730453, 730460, 730467, 730474, 730481, 730488, 730495, 730502, 730509, 730516, 730523, 730530, 730537, 730544, 730551, 730558, 730565, 730572, 730579, 730586, 730593, 730600, 730607, 730614, 730621, 730628, 730635, 730642, 730649, 730656, 730663, 730670, 730677, 730684, 730691, 730698, 730705, 730712, 730719, 730726, 730733, 730740, 730747, 730754, 730761, 730768, 730775, 730782, 730789] from by decide]
  decide

/-- Date-sequence facts for the year 2001, the loop evaluated once. -/
theorem c1_year_2001 : weekSeqSpec 2001 := by
  unfold weekSeqSpec
  rw [show V1.yearDates 2001 = [730796, 730803, 730810, 730817, 730824, 730831, 730838, 730845, 730852, 730859, 730866, 730873, 730880, 730887, 730894, 730901, 730908, 730915, 730922, 730929, 730936, 730943, 730950, 730957, 730964, 730971, 730978, 730985, 730992, 730999, 731006, 731013, 731020, 731027, 731034, 731041, 731048, 731055, 731062, 731069, 731076, 731083, 731090, 731097, 731104, 731111, 731118, 731125, 731132, 731139, 731146, 731153] from by decide]
  decide

/-- Date-sequence facts for the year 2002, the loop evaluated once. -/
theorem c1_year_2002 : weekSeqSpec 2002 := by
  unfold weekSeqSpec
  rw [show V1.yearDates 2002 = [731160, 731167, 731174, 731181, 731188, 731195, 731202, 731209, 731216, 731223, 731230, 731237, 731244, 731251, 731258, 731265, 731272, 731279, 731286, 731293, 731300, 731307, 731314, 731321, 731328, 731335, 731342, 731349, 731356, 731363, 731370, 731377, 731384, 731391, 731398, 731405, 731412, 731419, 731426, 731433, 731440, 731447, 731454, 731461, 731468, 731475, 731482, 731489, 731496, 731503, 731510, 731517] from by decide]
  decide

/-- Date-sequence facts for the year 2003, the loop evaluated once. -/
theorem c1_year_2003 : weekSeqSpec 2003 := by
  unfold weekSeqSpec
  rw [show V1.yearDates 2003 = [731524, 731531, 731538, 731545, 731552, 731559, 731566, 731573, 731580, 731587, 731594, 731601, 731608, 731615, 731622, 731629, 731636, 731643, 731650, 731657, 731664, 731671, 731678, 731685, 731692, 731699, 731706, 731713, 731720, 731727, 731734, 731741, 731748, 731755, 731762, 731769, 731776, 731783, 731790, 731797, 731804, 731811, 731818, 731825, 731832, 731839, 731846, 731853, 731860, 731867, 731874, 731881] from by decide]
  decide

/-- Date-sequence facts for the year 2004, the loop evaluated once. -/
theorem c1_year_2004 : weekSeqSpec 2004 := by
  unfold weekSeqSpec
  rw [show V1.yearDates 2004 = [731888, 731895, 731902, 731909, 731916, 731923, 731930, 731937, 731944, 731951, 731958, 731965, 731972, 731979, 731986, 731993, 732000, 732007, 732014, 732021, 732028, 732035, 732042, 732049, 732056, 732063, 732070, 732077, 732084, 732091, 732098, 732105, 732112, 732119, 732126, 732133, 732140, 732147, 732154, 732161, 732168, 732175, 732182, 732189, 732196, 732203, 732210, 732217, 732224, 732231, 732238, 732245, 732252] from by decide]
  decide

/-- Date-sequence facts for the year 2005, the loop evaluated once. -/
theorem c1_year_2005 : weekSeqSpec 2005 := by
  unfold weekSeqSpec
  rw [show V1.yearDates 2005 = [732259, 732266, 732273, 732280, 732287, 732294, 732301, 732308, 732315, 732322, 732329, 732336, 732343, 732350, 732357, 732364, 732371, 732378, 732385, 732392, 732399, 732406, 732413, 732420, 732427, 732434, 732441, 732448, 732455, 732462, 732469, 732476, 732483, 732490, 732497, 732504, 732511, 732518, 732525, 732532, 732539, 732546, 732553, 732560, 732567, 732574, 732581, 732588, 732595, 732602, 732609, 732616] from by decide]
  decide

/-- Date-sequence facts for the year 2006, the loop evaluated once. -/
theorem c1_year_2006 : weekSeqSpec 2006 := by
  unfold weekSeqSpec
  rw [show V1.yearDates 2006 = [732623, 732630, 732637, 732644, 732651, 732658, 732665, 732672, 732679, 732686, 732693, 732700, 732707, 732714, 732721, 732728, 732735, 732742, 732749, 732756, 732763, 732770, 732777, 732784, 732791, 732798, 732805, 732812, 732819, 732826, 732833, 732840, 732847, 732854, 732861, 732868, 732875, 732882, 732889, 732896, 732903, 732910, 732917, 732924, 732931, 732938, 732945, 732952, 732959, 732966, 732973, 732980] from by decide]
  decide

/-- Date-sequence facts for the year 2007, the loop evaluated once. -/
theorem c1_year_2007 : weekSeqSpec 2007 := by
  unfold weekSeqSpec
  rw [show V1.yearDates 2007 = [732987, 732994, 733001, 733008, 733015, 733022, 733029, 733036, 733043, 733050, 733057, 733064, 733071, 733078, 733085, 733092, 733099, 733106, 733113, 733120, 733127, 733134, 733141, 733148, 733155, 733162, 733169, 733176, 733183, 733190, 733197, 733204, 733211, 733218, 733225, 733232, 733239, 733246, 733253, 733260, 733267, 733274, 733281, 733288, 733295, 733302, 733309, 733316, 733323, 733330, 733337, 733344] from by decide]
  decide

/-- Date-sequence facts for the year 2008, the loop evaluated once. -/
theorem c1_year_2008 : weekSeqSpec 2008 := by
  unfold weekSeqSpec
  rw [show V1.yearDates 2008 = [733351, 733358, 733365, 733372, 733379, 733386, 733393, 733400, 733407, 733414, 733421, 733428, 733435, 733442, 733449, 733456, 733463, 733470, 733477, 733484, 733491, 733498, 733505, 733512, 733519, 733526, 733533, 733540, 733547, 733554, 733561, 733568, 733575, 733582, 733589, 733596, 733603, 733610, 733617, 733624, 733631, 733638, 733645, 733652, 733659, 733666, 733673, 733680, 733687, 733694, 733701, 733708] from by decide]
  decide

/-- Date-sequence facts for the year 2009, the loop evaluated once. -/
theorem c1_year_2009 : weekSeqSpec 2009 := by
  unfold weekSeqSpec
  rw [show V1.yearDates 2009 = [733715, 733722, 733729, 733736, 733743, 733750, 733757, 733764, 733771, 733778, 733785, 733792, 733799, 733806, 733813, 733820, 733827, 733834, 733841, 733848, 733855, 733862, 733869, 733876, 733883, 733890, 733897, 733904, 733911, 733918, 733925, 733932, 733939, 733946, 733953, 733960, 733967, 733974, 733981, 733988, 733995, 734002, 734009, 734016, 734023, 734030, 734037, 734044, 734051, 734058, 734065, 734072, 734079] from by decide]
  decide

/-- Date-sequence facts for the year 2010, the loop evaluated once. -/
theorem c1_year_2010 : weekSeqSpec 2010 := by
  unfold weekSeqSpec
  rw [show V1.yearDates 2010 = [734086, 734093, 734100, 734107, 734114, 734121, 734128, 734135, 734142, 734149, 734156, 734163, 734170, 734177, 734184, 734191, 734198, 734205, 734212, 734219, 734226, 734233, 734240, 734247, 734254, 734261, 734268, 734275, 734282, 734289, 734296, 734303, 734310, 734317, 734324, 734331, 734338, 734345, 734352, 734359, 734366, 734373, 734380, 734387, 734394, 734401, 734408, 734415, 734422, 734429, 734436, 734443] from by decide]
  decide

/-- Date-sequence facts for the year 2011, the loop evaluated once. -/
theorem c1_year_2011 : weekSeqSpec 2011 := by
  unfold weekSeqSpec
  rw [show V1.yearDates 2011 = [734450, 734457, 734464, 734471, 734478, 734485, 734492, 734499, 734506, 734513, 734520, 734527, 734534, 734541, 734548, 734555, 734562, 734569, 734576, 734583, 734590, 734597, 734604, 734611, 734618, 734625, 734632, 734639, 734646, 734653, 734660, 734667, 734674, 734681, 734688, 734695, 734702, 734709, 734716, 734723, 734730, 734737, 734744, 734751, 734758, 734765, 734772, 734779, 734786, 734793, 734800, 734807] from by decide]
  decide

/-- Date-sequence facts for the year 2012, the loop evaluated once. -/
theorem c1_year_2012 : weekSeqSpec 2012 := by
  unfold weekSeqSpec
  rw [show V1.yearDates 2012 = [734814, 734821, 734828, 734835, 734842, 734849, 734856, 734863, 734870, 734877, 734884, 734891, 734898, 734905, 734912, 734919, 734926, 734933, 734940, 734947, 734954, 734961, 734968, 734975, 734982, 734989, 734996, 735003, 735010, 735017, 735024, 735031, 735038, 735045, 735052, 735059, 735066, 735073, 735080, 735087, 735094, 735101, 735108, 735115, 735122, 735129, 735136, 735143, 735150, 735157, 735164, 735171] from by decide]
  decide

/-- Date-sequence facts for the year 2013, the loop evaluated once. -/
theorem c1_year_2013 : weekSeqSpec 2013 := by
  unfold weekSeqSpec
  rw [show V1.yearDates 2013 = [735178, 735185, 735192, 735199, 735206, 735213, 735220, 735227, 735234, 735241, 735248, 735255, 735262, 735269, 735276, 735283, 735290, 735297, 735304, 735311, 735318, 735325, 735332, 735339, 735346, 735353, 735360, 735367, 735374, 735381, 735388, 735395, 735402, 735409, 735416, 735423, 735430, 735437, 735444, 735451, 735458, 735465, 735472, 735479, 735486, 735493, 735500, 735507, 735514, 735521, 735528, 735535] from by decide]
  decide

/-- Date-sequence facts for the year 2014, the loop evaluated once. -/
theorem c1_year_2014 : weekSeqSpec 2014 := by
  unfold weekSeqSpec
  rw [show V1.yearDates 2014 = [735542, 735549, 735556, 735563, 735570, 735577, 735584, 735591, 735598, 735605, 735612, 735619, 735626, 735633, 735640, 735647, 735654, 735661, 735668, 735675, 735682, 735689, 735696, 735703, 735710, 735717, 735724, 735731, 735738, 735745, 735752, 735759, 735766, 735773, 735780, 735787, 735794, 735801, 735808, 735815, 735822, 735829, 735836, 735843, 735850, 735857, 735864, 735871, 735878, 735885, 735892, 735899] from by decide]
  decide

/-- Date-sequence facts for the year 2015, the loop evaluated once. -/
theorem c1_year_2015 : weekSeqSpec 2015 := by
  unfold weekSeqSpec
  rw [show V1.yearDates 2015 = [735906, 735913, 735920, 735927, 735934, 735941, 735948, 735955, 735962, 735969, 735976, 735983, 735990, 735997, 736004, 736011, 736018, 736025, 736032, 736039, 736046, 736053, 736060, 736067, 736074, 736081, 736088, 736095, 736102, 736109, 736116, 736123, 736130, 736137, 736144, 736151, 736158, 736165, 736172, 736179, 736186, 736193, 736200, 736207, 736214, 736221, 736228, 736235, 736242, 736249, 736256, 736263, 736270] from by decide]
  decide

/-- Date-sequence facts for the year 2016, the loop evaluated once. -/
theorem c1_year_2016 : weekSeqSpec 2016 := by
  unfold weekSeqSpec
  rw [show V1.yearDates 2016 = [736277, 736284, 736291, 736298, 736305, 736312, 736319, 736326, 736333, 736340, 736347, 736354, 736361, 736368, 736375, 736382, 736389, 736396, 736403, 736410, 736417, 736424, 736431, 736438, 736445, 736452, 736459, 736466, 736473, 736480, 736487, 736494, 736501, 736508, 736515, 736522, 736529, 736536, 736543, 736550, 736557, 736564, 736571, 736578, 736585, 736592, 736599, 736606, 736613, 736620, 736627, 736634] from by decide]
  decide

/-- Date-sequence facts for the year 2017, the loop evaluated once. -/
theorem c1_year_2017 : weekSeqSpec 2017 := by
  unfold weekSeqSpec
  rw [show V1.yearDates 2017 = [736641, 736648, 736655, 736662, 736669, 736676, 736683, 736690, 736697, 736704, 736711, 736718, 736725, 736732, 736739, 736746, 736753, 736760, 736767, 736774, 736781, 736788, 736795, 736802, 736809, 736816, 736823, 736830, 736837, 736844, 736851, 736858, 736865, 736872, 736879, 736886, 736893, 736900, 736907, 736914, 736921, 736928, 736935, 736942, 736949, 736956, 736963, 736970, 736977, 736984, 736991, 736998] from by decide]
  decide

/-- Date-sequence facts for the year 2018, the loop evaluated once. -/
theorem c1_year_2018 : weekSeqSpec 2018 := by
  unfold weekSeqSpec
  rw [show V1.yearDates 2018 = [737005, 737012, 737019, 737026, 737033, 737040, 737047, 737054, 737061, 737068, 737075, 737082, 737089, 737096, 737103, 737110, 737117, 737124, 737131, 737138, 737145, 737152, 737159, 737166, 737173, 737180, 737187, 737194, 737201, 737208, 737215, 737222, 737229, 737236, 737243, 737250, 737257, 737264, 737271, 737278, 737285, 737292, 737299, 737306, 737313, 737320, 737327, 737334, 737341, 737348, 737355, 737362] from by decide]
  decide

/-- Date-sequence facts for the year 2019, the loop evaluated once. -/
theorem c1_year_2019 : weekSeqSpec 2019 := by
  unfold weekSeqSpec
  rw [show V1.yearDates 2019 = [737369, 737376, 737383, 737390, 737397, 737404, 737411, 737418, 737425, 737432, 737439, 737446, 737453, 737460, 737467, 737474, 737481, 737488, 737495, 737502, 737509, 737516, 737523, 737530, 737537, 737544, 737551, 737558, 737565, 737572, 737579, 737586, 737593, 737600, 737607, 737614, 737621, 737628, 737635, 737642, 737649, 737656, 737663, 737670, 737677, 737684, 737691, 737698, 737705, 737712, 737719, 737726] from by decide]
  decide

/-- Date-sequence facts for the year 2020, the loop evaluated once. -/
theorem c1_year_2020 : weekSeqSpec 2020 := by
  unfold weekSeqSpec
  rw [show V1.yearDates 2020 = [737733, 737740, 737747, 737754, 737761, 737768, 737775, 737782, 737789, 737796, 737803, 737810, 737817, 737824, 737831, 737838, 737845, 737852, 737859, 737866, 737873, 737880, 737887, 737894, 737901, 737908, 737915, 737922, 737929, 737936, 737943, 737950, 737957, 737964, 737971, 737978, 737985, 737992, 737999, 738006, 738013, 738020, 738027, 738034, 738041, 738048, 738055, 738062, 738069, 738076, 738083, 738090, 738097] from by decide]
  decide

/-- Date-sequence facts for the year 2021, the loop evaluated once. -/
theorem c1_year_2021 : weekSeqSpec 2021 := by
  unfold weekSeqSpec
  rw [show V1.yearDates 2021 = [738104, 738111, 738118, 738125, 738132, 738139, 738146, 738153, 738160, 738167, 738174, 738181, 738188, 738195, 738202, 738209, 738216, 738223, 738230, 738237, 738244, 738251, 738258, 738265, 738272, 738279, 738286, 738293, 738300, 738307, 738314, 738321, 738328, 738335, 738342, 738349, 738356, 738363, 738370, 738377, 738384, 738391, 738398, 738405, 738412, 738419, 738426, 738433, 738440, 738447, 738454, 738461] from by decide]
  decide

/-- Date-sequence facts for the year 2022, the loop evaluated once. -/
theorem c1_year_2022 : weekSeqSpec 2022 := by
  unfold weekSeqSpec
  rw [show V1.yearDates 2022 = [738468, 738475, 738482, 738489, 738496, 738503, 738510, 738517, 738524, 738531, 738538, 738545, 738552, 738559, 738566, 738573, 738580, 738587, 738594, 738601, 738608, 738615, 738622, 738629, 738636, 738643, 738650, 738657, 738664, 738671, 738678, 738685, 738692, 738699, 738706, 738713, 738720, 738727, 738734, 738741, 738748, 738755, 738762, 738769, 738776, 738783, 738790, 738797, 738804, 738811, 738818, 738825] from by decide]
  decide

/-- C1: for every requested year in the accepted range 1958..2022, the
week-ending date sequence of the year-range main starts at the Saturday of
ISO week 1 of that year (the fixed historical start week 31 for 1958), is
strictly increasing with consecutive dates exactly seven days apart, stops
strictly before the following year ISO week 1 Saturday, never contains the
designated gap-week Saturday 1961-W52-6, and is exactly the Saturday of
every ISO week of the year from the anchor week on, one date per ISO week,
with only the gap week excluded. -/
theorem c1_week_date_sequence (y : Nat) (h1 : 1958 ≤ y) (h2 : y ≤ 2022) :
    weekSeqSpec y := by
  interval_cases y
  · exact c1_year_1958
  · exact c1_year_1959
  · exact c1_year_1960
  · exact c1_year_1961
  · exact c1_year_1962
  · exact c1_year_1963
  · exact c1_year_1964
  · exact c1_year_1965
  · exact c1_year_1966
  · exact c1_year_1967
  · exact c1_year_1968
  · exact c1_year_1969
  · exact c1_year_1970
  · exact c1_year_1971
  · exact c1_year_1972
  · exact c1_year_1973
  · exact c1_year_1974
  · exact c1_year_1975
  · exact c1_year_1976
  · exact c1_year_1977
  · exact c1_year_1978
  · exact c1_year_1979
  · exact c1_year_1980
  · exact c1_year_1981
  · exact c1_year_1982
  · exact c1_year_1983
  · exact c1_year_1984
  · exact c1_year_1985
  · exact c1_year_1986
  · exact c1_year_1987
  · exact c1_year_1988
  · exact c1_year_1989
  · exact c1_year_1990
  · exact c1_year_1991
  · exact c1_year_1992
  · exact c1_year_1993
  · exact c1_year_1994
  · exact c1_year_1995
  · exact c1_year_1996
  · exact c1_year_1997
  · exact c1_year_1998
  · exact c1_year_1999
  · exact c1_year_2000
  · exact c1_year_2001
  · exact c1_year_2002
  · exact c1_year_2003
  · exact c1_year_2004
  · exact c1_year_2005
  · exact c1_year_2006
  · exact c1_year_2007
  · exact c1_year_2008
  · exact c1_year_2009
  · exact c1_year_2010
  · exact c1_year_2011
  · exact c1_year_2012
  · exact c1_year_2013
  · exact c1_year_2014
  · exact c1_year_2015
  · exact c1_year_2016
  · exact c1_year_2017
  · exact c1_year_2018
  · exact c1_year_2019
  · exact c1_year_2020
  · exact c1_year_2021
  · exact c1_year_2022

/-- Witness for C1 at the gap-week year 1961. -/
theorem c1_week_date_sequence_witness :
    1958 ≤ 1961 ∧ 1961 ≤ 2022 ∧ weekSeqSpec 1961 :=
  ⟨by decide, by decide, c1_week_date_sequence 1961 (by decide) (by decide)⟩

end BillboardScraper

namespace BillboardScraper

theorem takeWhile_all_append (p : Char → Bool) : ∀ (xs : List Char) (y : Char) (r : List Char),
    (∀ c ∈ xs, p c = true) → p y = false →
    (xs ++ y :: r).takeWhile p = xs ∧ (xs ++ y :: r).dropWhile p = y :: r := by
  intro xs
  induction xs with
  | nil =>
    intro y r _ hy
    simp [List.takeWhile_cons, List.dropWhile_cons, hy]
  | cons x xs ih =>
    intro y r hall hy
    have hx := hall x (List.mem_cons_self x xs)
    obtain ⟨ih1, ih2⟩ := ih y r (fun c hc => hall c (List.mem_cons_of_mem _ hc)) hy
    constructor
    · simp [List.takeWhile_cons, hx, ih1]
    · simp [List.dropWhile_cons, hx, ih2]

theorem digitChar_spec : ∀ n < 10,
    (digitChar n).isDigit = true ∧ (digitChar n).toNat - 48 = n ∧ digitChar n ≠ '\n' := by
  decide

theorem valDigits_append_one (xs : List Char) (c : Char) :
    valDigits (xs ++ [c]) = 10 * valDigits xs + (c.toNat - 48) := by
  unfold valDigits
  rw [List.foldl_append]
  rfl

theorem natCharsAux_spec : ∀ (fuel n : Nat), n < fuel →
    (∀ c ∈ natCharsAux fuel n, ∃ m, m < 10 ∧ c = digitChar m)
    ∧ valDigits (natCharsAux fuel n) = n
    ∧ natCharsAux fuel n ≠ [] := by
  intro fuel
  induction fuel with
  | zero => intro n h; omega
  | succ f ih =>
    intro n h
    by_cases h10 : n < 10
    · refine ⟨?_, ?_, ?_⟩
      · intro c hc
        simp [natCharsAux, h10] at hc
        exact ⟨n, h10, hc⟩
      · simp [natCharsAux, h10, valDigits, (digitChar_spec n h10).2.1]
      · simp [natCharsAux, h10]
    · have hdiv : n / 10 < f := by
        have := Nat.div_lt_self (by omega : 0 < n) (by omega : 1 < 10)
        omega
      obtain ⟨hmem, hval, hne⟩ := ih (n / 10) hdiv
      have hmod : n % 10 < 10 := Nat.mod_lt n (by omega)
      refine ⟨?_, ?_, ?_⟩
      · intro c hc
        simp only [natCharsAux, h10, if_false, List.mem_append, List.mem_singleton] at hc
        rcases hc with hc | hc
        · exact hmem c hc
        · exact ⟨n % 10, hmod, hc⟩
      · simp only [natCharsAux, h10, if_false]
        rw [valDigits_append_one, hval, (digitChar_spec (n % 10) hmod).2.1]
        omega
      · simp [natCharsAux, h10]

theorem natChars_digits (n : Nat) : ∀ c ∈ natChars n, c.isDigit = true := by
  intro c hc
  obtain ⟨m, hm, rfl⟩ := (natCharsAux_spec (n + 1) n (by omega)).1 c hc
  exact (digitChar_spec m hm).1

theorem valDigits_natChars (n : Nat) : valDigits (natChars n) = n :=
  (natCharsAux_spec (n + 1) n (by omega)).2.1

theorem natChars_ne_nil (n : Nat) : natChars n ≠ [] :=
  (natCharsAux_spec (n + 1) n (by omega)).2.2

theorem newline_not_mem_natChars (n : Nat) : '\n' ∉ natChars n := by
  intro hc
  obtain ⟨m, hm, heq⟩ := (natCharsAux_spec (n + 1) n (by omega)).1 '\n' hc
  exact (digitChar_spec m hm).2.2 heq.symm

theorem parseNat_natChars (n : Nat) (y : Char) (r : List Char) (hy : y.isDigit = false) :
    parseNat (natChars n ++ y :: r) = some (n, y :: r) := by
  obtain ⟨ht, hd⟩ := takeWhile_all_append (fun c => c.isDigit) (natChars n) y r
    (natChars_digits n) hy
  unfold parseNat
  rw [ht, hd]
  have hne : (natChars n).isEmpty = false := by
    cases hnc : natChars n with
    | nil => exact absurd hnc (natChars_ne_nil n)
    | cons x xs => rfl
  simp [hne, valDigits_natChars n]

theorem expectChar_cons_self (c : Char) (r : List Char) : expectChar c (c :: r) = some r := by
  simp [expectChar]

theorem hexVal_hexDigitChar : ∀ m < 16, hexVal (hexDigitChar m) = some m := by
  decide

theorem hexDigitChar_ne_newline : ∀ m < 16, hexDigitChar m ≠ '\n' := by
  decide

theorem escChar_ne_newline (c : Char) : ∀ x ∈ escChar c, x ≠ '\n' := by
  unfold escChar
  split_ifs with h1 h2 h3 h4 h5 h6 h7 h8 <;> intro x hx
  · simp at hx; rcases hx with rfl | rfl <;> decide
  · simp at hx; rcases hx with rfl | rfl <;> decide
  · simp at hx; rcases hx with rfl | rfl <;> decide
  · simp at hx; rcases hx with rfl | rfl <;> decide
  · simp at hx; rcases hx with rfl | rfl <;> decide
  · simp at hx; rcases hx with rfl | rfl <;> decide
  · simp at hx; rcases hx with rfl | rfl <;> decide
  · simp at hx
    rcases hx with rfl | rfl | rfl | rfl | rfl
    all_goals
      first
        | decide
        | exact hexDigitChar_ne_newline _ (by omega)
  · simp at hx
    subst hx
    intro heq
    subst heq
    exact h8 (by decide)

end BillboardScraper

namespace BillboardScraper

theorem psb_step_quote (r acc : List Char) :
    parseStringBody ('"' :: r) acc = some (acc.reverse, r) := by
  rw [parseStringBody.eq_def]
  simp

theorem psb_esc_quote (r acc : List Char) :
    parseStringBody ('\\' :: '"' :: r) acc = parseStringBody r ('"' :: acc) := by
  rw [parseStringBody.eq_def]
  simp

theorem psb_esc_backslash (r acc : List Char) :
    parseStringBody ('\\' :: '\\' :: r) acc = parseStringBody r ('\\' :: acc) := by
  rw [parseStringBody.eq_def]
  simp

theorem psb_esc_b (r acc : List Char) :
    parseStringBody ('\\' :: 'b' :: r) acc = parseStringBody r ('\x08' :: acc) := by
  rw [parseStringBody.eq_def]
  simp

theorem psb_esc_t (r acc : List Char) :
    parseStringBody ('\\' :: 't' :: r) acc = parseStringBody r ('\t' :: acc) := by
  rw [parseStringBody.eq_def]
  simp

theorem psb_esc_n (r acc : List Char) :
    parseStringBody ('\\' :: 'n' :: r) acc = parseStringBody r ('\n' :: acc) := by
  rw [parseStringBody.eq_def]
  simp

theorem psb_esc_f (r acc : List Char) :
    parseStringBody ('\\' :: 'f' :: r) acc = parseStringBody r ('\x0c' :: acc) := by
  rw [parseStringBody.eq_def]
  simp

theorem psb_esc_r (r acc : List Char) :
    parseStringBody ('\\' :: 'r' :: r) acc = parseStringBody r ('\x0d' :: acc) := by
  rw [parseStringBody.eq_def]
  simp

theorem psb_esc_u (h1c h2c h3c h4c : Char) (a b c2 d : Nat) (r acc : List Char)
    (ha : hexVal h1c = some a) (hb : hexVal h2c = some b)
    (hc : hexVal h3c = some c2) (hd : hexVal h4c = some d) :
    parseStringBody ('\\' :: 'u' :: h1c :: h2c :: h3c :: h4c :: r) acc
      = parseStringBody r (Char.ofNat (((a * 16 + b) * 16 + c2) * 16 + d) :: acc) := by
  rw [parseStringBody.eq_def]
  simp [ha, hb, hc, hd]

theorem psb_step_other (c : Char) (r acc : List Char) (hq : ¬ c = '"') (hb : ¬ c = '\\') :
    parseStringBody (c :: r) acc = parseStringBody r (c :: acc) := by
  rw [parseStringBody.eq_def]
  simp [hq, hb]

theorem parseStringBody_roundtrip : ∀ (cs acc rest : List Char),
    parseStringBody (cs.flatMap escChar ++ '"' :: rest) acc
      = some (acc.reverse ++ cs, rest) := by
  intro cs
  induction cs with
  | nil =>
    intro acc rest
    simp only [List.flatMap_nil, List.nil_append]
    rw [psb_step_quote]
    simp
  | cons c cs ih =>
    intro acc rest
    have hsplit : (c :: cs).flatMap escChar ++ '"' :: rest
        = escChar c ++ (cs.flatMap escChar ++ '"' :: rest) := by
      simp [List.flatMap_cons, List.append_assoc]
    rw [hsplit]
    by_cases h1 : c = '"'
    · subst h1
      rw [show escChar '"' = ['\\', '"'] from rfl]
      simp only [List.cons_append, List.nil_append]
      rw [psb_esc_quote, ih]
      simp
    · by_cases h2 : c = '\\'
      · subst h2
        rw [show escChar '\\' = ['\\', '\\'] from rfl]
        simp only [List.cons_append, List.nil_append]
        rw [psb_esc_backslash, ih]
        simp
      · by_cases h3 : c = '\x08'
        · subst h3
          rw [show escChar '\x08' = ['\\', 'b'] from rfl]
          simp only [List.cons_append, List.nil_append]
          rw [psb_esc_b, ih]
          simp
        · by_cases h4 : c = '\t'
          · subst h4
            rw [show escChar '\t' = ['\\', 't'] from rfl]
            simp only [List.cons_append, List.nil_append]
            rw [psb_esc_t, ih]
            simp
          · by_cases h5 : c = '\n'
            · subst h5
              rw [show escChar '\n' = ['\\', 'n'] from rfl]
              simp only [List.cons_append, List.nil_append]
              rw [psb_esc_n, ih]
              simp
            · by_cases h6 : c = '\x0c'
              · subst h6
                rw [show escChar '\x0c' = ['\\', 'f'] from rfl]
                simp only [List.cons_append, List.nil_append]
                rw [psb_esc_f, ih]
                simp
              · by_cases h7 : c = '\x0d'
                · subst h7
                  rw [show escChar '\x0d' = ['\\', 'r'] from rfl]
                  simp only [List.cons_append, List.nil_append]
                  rw [psb_esc_r, ih]
                  simp
                · by_cases h8 : c.toNat < 32
                  · have hesc : escChar c
                        = ['\\', 'u', '0', '0', hexDigitChar (c.toNat / 16),
                            hexDigitChar (c.toNat % 16)] := by
                      simp [escChar, h1, h2, h3, h4, h5, h6, h7, h8]
                    rw [hesc]
                    simp only [List.cons_append, List.nil_append]
                    rw [psb_esc_u '0' '0' (hexDigitChar (c.toNat / 16))
                      (hexDigitChar (c.toNat % 16)) 0 0 (c.toNat / 16) (c.toNat % 16) _ _
                      (by decide) (by decide)
                      (hexVal_hexDigitChar (c.toNat / 16) (by omega))
                      (hexVal_hexDigitChar (c.toNat % 16) (by omega))]
                    have hv : ((0 * 16 + 0) * 16 + c.toNat / 16) * 16 + c.toNat % 16
                        = c.toNat := by
                      omega
                    rw [hv, Char.ofNat_toNat, ih]
                    simp
                  · have hesc : escChar c = [c] := by
                      simp [escChar, h1, h2, h3, h4, h5, h6, h7, h8]
                    rw [hesc]
                    simp only [List.singleton_append]
                    rw [psb_step_other c _ _ h1 h2, ih]
                    simp

end BillboardScraper

namespace BillboardScraper

/-- C7: every ChartEntry serialized by the year-range ingest as a one-line
JSON array, when read back line by line and parsed, yields the identical
five-tuple; the serialized form contains no newline, so it occupies exactly
one record-file line. -/
theorem c7_record_line_roundtrip (e : Entry) :
    parseEntryLine (entryLine e) = some e ∧ '\n' ∉ stringifyEntry e := by
  obtain ⟨wy, wn, p, a, t⟩ := e
  constructor
  · have hdata : (entryLine ⟨wy, wn, p, a, t⟩).data
        = '[' :: (natChars wy ++ ',' :: (natChars wn ++ ',' :: (natChars p ++
            ',' :: ('"' :: (a.data.flatMap escChar ++
              '"' :: (',' :: ('"' :: (t.data.flatMap escChar ++
                '"' :: (']' :: []))))))))) := by
      simp [entryLine, stringifyEntry, quoteChars, List.cons_append, List.append_assoc]
    unfold parseEntryLine
    rw [hdata]
    rw [expectChar_cons_self]
    simp only [Option.bind_eq_bind, Option.some_bind]
    rw [parseNat_natChars wy ',' _ (by decide)]
    simp only [Option.some_bind]
    rw [expectChar_cons_self]
    simp only [Option.some_bind]
    rw [parseNat_natChars wn ',' _ (by decide)]
    simp only [Option.some_bind]
    rw [expectChar_cons_self]
    simp only [Option.some_bind]
    rw [parseNat_natChars p ',' _ (by decide)]
    simp only [Option.some_bind]
    rw [expectChar_cons_self]
    simp only [Option.some_bind]
    rw [expectChar_cons_self]
    simp only [Option.some_bind]
    rw [parseStringBody_roundtrip]
    simp only [List.reverse_nil, List.nil_append, Option.some_bind]
    rw [expectChar_cons_self]
    simp only [Option.some_bind]
    rw [expectChar_cons_self]
    simp only [Option.some_bind]
    rw [parseStringBody_roundtrip]
    simp only [List.reverse_nil, List.nil_append, Option.some_bind]
    rw [expectChar_cons_self]
    simp only [Option.some_bind]
    rfl
  · have hflat : ∀ l : List Char, '\n' ∉ l.flatMap escChar := by
      intro l hm
      rcases List.mem_flatMap.mp hm with ⟨x, _, hx⟩
      exact escChar_ne_newline x '\n' hx rfl
    intro hmem
    simp only [stringifyEntry, quoteChars, List.mem_cons, List.mem_append,
      List.mem_singleton, List.not_mem_nil, newline_not_mem_natChars wy,
      newline_not_mem_natChars wn, newline_not_mem_natChars p,
      hflat a.data, hflat t.data, or_false, false_or] at hmem
    exact absurd hmem (by decide)

end BillboardScraper
